import Mathlib

set_option autoImplicit false

/-
Verification development for the LieDetector browser extension core.

The TypeScript sources are shallowly embedded:
  * JS regular expressions become values of the `RE` datatype, matched by a
    fuel-bounded backtracking interpreter that mirrors JS semantics (leftmost
    match, left-biased alternation, greedy star, `i` flag as ASCII case
    folding, `^`/`$` anchors, `\b` word boundaries).
  * `assessClaimWorthiness`, `findClaimBoundary`, `detectClaims` and
    `deduplicateClaims` are direct transliterations from the claim detector.
  * The module-level mutable registries of the highlighter (tracked claims,
    pending verifications, tooltip singleton) become an explicit
    `HighlighterState` threaded through the operations.
  * DOM reads (text location, scroll offsets) are supplied by a `DocEnv`
    record; client rectangles are modelled with exact rational coordinates.
  * Impure identifier generation (Date.now, Math.random) is replaced by
    injected parameters, and `Date` values by an explicit `DateV` datatype.
-/

namespace LieDetector

/-- Abstract syntax of the fragment of JS regular expressions used by the
claim detector: literals, character classes (possibly negated, given as
inclusive ranges), the any-character dot, concatenation, alternation, Kleene
star, the `^`/`$` anchors and the `\b` word boundary. -/
inductive RE where
  | eps : RE
  | chr : Char → RE
  | cls : Bool → List (Char × Char) → RE
  | anychar : RE
  | cat : RE → RE → RE
  | alt : RE → RE → RE
  | star : RE → RE
  | bol : RE
  | eol : RE
  | wordB : RE
deriving Repr

namespace RE

/-- Structural size of a regex, used to compute a sufficient fuel bound for
the backtracking interpreter. -/
def size : RE → Nat
  | .eps => 1
  | .chr _ => 1
  | .cls _ _ => 1
  | .anychar => 1
  | .bol => 1
  | .eol => 1
  | .wordB => 1
  | .cat a b => a.size + b.size + 1
  | .alt a b => a.size + b.size + 1
  | .star a => a.size + 2

/-- Literal string as a regex (concatenation of its characters). -/
def lit (s : String) : RE := s.data.foldr (fun c r => RE.cat (RE.chr c) r) RE.eps

/-- Left-biased alternation of a list of regexes (JS `(a|b|c)`). -/
def alts : List RE → RE
  | [] => RE.eps
  | [r] => r
  | r :: rest => RE.alt r (alts rest)

/-- Concatenation of a list of regexes. -/
def cats : List RE → RE := fun l => l.foldr RE.cat RE.eps

/-- JS `r?`. -/
def opt (r : RE) : RE := RE.alt r RE.eps

/-- JS `r+`. -/
def plus (r : RE) : RE := RE.cat r (RE.star r)

/-- JS `r{0,n}` desugared into nested options. -/
def repMax (r : RE) : Nat → RE
  | 0 => RE.eps
  | n + 1 => opt (RE.cat r (repMax r n))

/-- Alternation of literal words. -/
def litAlt (ws : List String) : RE := alts (ws.map lit)

/-- A literal word with an optional trailing `s` (JS `words?`). -/
def wordOptS (s : String) : RE := RE.cat (lit s) (opt (RE.chr 's'))

end RE

/-- The apostrophe character, kept out of string literals. -/
def apoChar : Char := Char.ofNat 39

/-- The horizontal-ellipsis character `…`. -/
def hellipChar : Char := Char.ofNat 0x2026

/-- The em-dash character `—`. -/
def emDashChar : Char := Char.ofNat 0x2014

/-- Ranges for the JS `\s` class (ASCII whitespace plus NBSP; the rarer
Unicode space code points do not occur in the texts under study). -/
def spaceRanges : List (Char × Char) :=
  [(' ', ' '), ('\t', '\t'), ('\n', '\n'), (Char.ofNat 11, Char.ofNat 13),
   (Char.ofNat 160, Char.ofNat 160)]

/-- Ranges for the JS `\w` class. -/
def wordRanges : List (Char × Char) :=
  [('A', 'Z'), ('a', 'z'), ('0', '9'), ('_', '_')]

/-- Ranges for the JS `\d` class. -/
def digitRanges : List (Char × Char) := [('0', '9')]

/-- Membership of a character in a list of inclusive ranges. -/
def charInRanges (p : List (Char × Char)) (c : Char) : Bool :=
  p.any fun q => decide (q.1.toNat ≤ c.toNat ∧ c.toNat ≤ q.2.toNat)

/-- Character comparison, case-insensitively when `ci` is set (the JS `i`
flag restricted to ASCII case folding). -/
def charEqCI (ci : Bool) (c d : Char) : Bool :=
  c == d || (ci && (c.toLower == d.toLower))

/-- Character-class matching, honouring negation and the `i` flag. -/
def clsMatches (ci neg : Bool) (p : List (Char × Char)) (c : Char) : Bool :=
  let m := charInRanges p c || (ci && (charInRanges p c.toLower || charInRanges p c.toUpper))
  if neg then !m else m

/-- JS `.` excludes line terminators. -/
def isLineTerminator (c : Char) : Bool :=
  c == '\n' || c == '\r' || c.toNat == 0x2028 || c.toNat == 0x2029

/-- Word character for `\b` (JS `\w`). -/
def isWordChar (c : Char) : Bool := charInRanges wordRanges c

/-- The JS `\b` assertion at position `i` of `s`. -/
def atWordBoundary (s : List Char) (i : Nat) : Bool :=
  let prev := if i = 0 then false else
    match s.get? (i - 1) with
    | some c => isWordChar c
    | none => false
  let cur :=
    match s.get? i with
    | some c => isWordChar c
    | none => false
  prev != cur

/-- Fuel-bounded backtracking regex interpreter in continuation-passing
style. `reRun ci s fuel r i k` attempts to match `r` against `s` starting at
position `i`; on success of a prefix it calls the continuation `k` with the
position after the match, and the first continuation success (in JS
backtracking order: left-biased alternation, greedy star) is returned. -/
def reRun (ci : Bool) (s : List Char) : Nat → RE → Nat → (Nat → Option Nat) → Option Nat
  | 0, _, _, _ => none
  | _ + 1, RE.eps, i, k => k i
  | _ + 1, RE.chr d, i, k =>
    match s.get? i with
    | some c => if charEqCI ci c d then k (i + 1) else none
    | none => none
  | _ + 1, RE.cls neg p, i, k =>
    match s.get? i with
    | some c => if clsMatches ci neg p c then k (i + 1) else none
    | none => none
  | _ + 1, RE.anychar, i, k =>
    match s.get? i with
    | some c => if isLineTerminator c then none else k (i + 1)
    | none => none
  | _ + 1, RE.bol, i, k => if i = 0 then k i else none
  | _ + 1, RE.eol, i, k => if i = s.length then k i else none
  | _ + 1, RE.wordB, i, k => if atWordBoundary s i then k i else none
  | fuel + 1, RE.cat a b, i, k => reRun ci s fuel a i (fun j => reRun ci s fuel b j k)
  | fuel + 1, RE.alt a b, i, k => (reRun ci s fuel a i k) <|> (reRun ci s fuel b i k)
  | fuel + 1, RE.star a, i, k =>
    (reRun ci s fuel a i (fun j => if j = i then none else reRun ci s fuel (RE.star a) j k)) <|>
      k i

/-- Fuel sufficient for matching `r` against a string of length `n`. -/
def reFuel (r : RE) (n : Nat) : Nat := (n + 1) * (r.size + 2) + r.size + 2

/-- JS `pattern.test(text)`: search for a match starting at any position.
The pattern is paired with its `i` (case-insensitive) flag. -/
def reTest (p : Bool × RE) (text : String) : Bool :=
  let s := text.data
  (List.range (s.length + 1)).any fun i =>
    (reRun p.1 s (reFuel p.2 s.length) p.2 i some).isSome

/-- First match of `r` at a start position `≥ i`, as a (start, end) offset
pair; `tries` bounds the number of start positions examined. -/
def reFindAux (ci : Bool) (r : RE) (s : List Char) (fuel : Nat) : Nat → Nat → Option (Nat × Nat)
  | 0, _ => none
  | tries + 1, i =>
    match reRun ci s fuel r i some with
    | some e => some (i, e)
    | none => reFindAux ci r s fuel tries (i + 1)

/-- All successive matches of a global (`g`) pattern, mirroring the
`while ((match = pattern.exec(text)) !== null)` loops of the detector: each
search resumes at the end offset of the previous match. -/
def execAllAux (ci : Bool) (r : RE) (s : List Char) (fuel : Nat) : Nat → Nat → List (Nat × Nat)
  | 0, _ => []
  | n + 1, pos =>
    match reFindAux ci r s fuel (s.length + 1 - pos) pos with
    | none => []
    | some (st, en) => (st, en) :: execAllAux ci r s fuel n (if en ≤ st then st + 1 else en)

/-- All matches of a flagged pattern in a text, in scan order. -/
def execAll (p : Bool × RE) (text : String) : List (Nat × Nat) :=
  execAllAux p.1 p.2 text.data (reFuel p.2 text.data.length) (text.data.length + 1) 0

/-- Shorthand for the `\s` class as a regex. -/
def sp : RE := RE.cls false spaceRanges

/-- Shorthand for the `\w` class as a regex. -/
def wd : RE := RE.cls false wordRanges

/-- Shorthand for the `\d` class as a regex. -/
def dg : RE := RE.cls false digitRanges

open RE in
/-- The negative (junk) patterns of the claim detector, in source order, each
paired with its `i` flag. Transcribed one-to-one from `JUNK_PATTERNS`. -/
def JUNK_PATTERNS : List (Bool × RE) := [
  -- /^\d+K?\+?\s*views?/i
  (true, cats [bol, plus dg, opt (chr 'K'), opt (chr '+'), star sp, wordOptS "view"]),
  -- /^\d+\s*(days?|weeks?|months?|years?)\s*ago/i
  (true, cats [bol, plus dg, star sp,
    alts [wordOptS "day", wordOptS "week", wordOptS "month", wordOptS "year"], star sp, lit "ago"]),
  -- /^\d+\s*(minutes?|hours?)\s*(ago|read)/i
  (true, cats [bol, plus dg, star sp, alts [wordOptS "minute", wordOptS "hour"], star sp,
    alts [lit "ago", lit "read"]]),
  -- /^(posted|published|updated|modified)\s*(on|:)/i
  (true, cats [bol, litAlt ["posted", "published", "updated", "modified"], star sp,
    alts [lit "on", chr ':']]),
  -- /^\d+\s*comments?/i
  (true, cats [bol, plus dg, star sp, wordOptS "comment"]),
  -- /^\d+\s*(likes?|shares?|retweets?)/i
  (true, cats [bol, plus dg, star sp, alts [wordOptS "like", wordOptS "share", wordOptS "retweet"]]),
  -- /^(read more|see more|show more|view all|load more)/i
  (true, cats [bol, litAlt ["read more", "see more", "show more", "view all", "load more"]]),
  -- /^(click here|tap here|learn more|find out)/i
  (true, cats [bol, litAlt ["click here", "tap here", "learn more", "find out"]]),
  -- /^(subscribe|sign up|join|register|log ?in|sign ?in)/i
  (true, cats [bol, alts [lit "subscribe", lit "sign up", lit "join", lit "register",
    cats [lit "log", opt (chr ' '), lit "in"], cats [lit "sign", opt (chr ' '), lit "in"]]]),
  -- /^(share|tweet|post|email|print)/i
  (true, cats [bol, litAlt ["share", "tweet", "post", "email", "print"]]),
  -- /^(next|previous|back|forward|menu|home)/i
  (true, cats [bol, litAlt ["next", "previous", "back", "forward", "menu", "home"]]),
  -- /^(skip to|jump to|go to)/i
  (true, cats [bol, litAlt ["skip to", "jump to", "go to"]]),
  -- /delivered to your (inbox|email)/i
  (true, cats [lit "delivered to your ", litAlt ["inbox", "email"]]),
  -- /didn\x27t know this (simple )?trick/i
  (true, cats [lit "didn", chr apoChar, lit "t know this ", opt (lit "simple "), lit "trick"]),
  -- /doctors (hate|don\x27t want you to know)/i
  (true, cats [lit "doctors ", alts [lit "hate",
    cats [lit "don", chr apoChar, lit "t want you to know"]]]),
  -- /(one weird|simple) trick/i
  (true, cats [alts [lit "one weird", lit "simple"], lit " trick"]),
  -- /you won\x27t believe/i
  (true, cats [lit "you won", chr apoChar, lit "t believe"]),
  -- /sponsored( content| post)?$/i
  (true, cats [lit "sponsored", opt (alts [lit " content", lit " post"]), eol]),
  -- /advertisement/i
  (true, lit "advertisement"),
  -- /promoted/i
  (true, lit "promoted"),
  -- /we use cookies/i
  (true, lit "we use cookies"),
  -- /privacy policy/i
  (true, lit "privacy policy"),
  -- /terms (of service|and conditions)/i
  (true, cats [lit "terms ", alts [lit "of service", lit "and conditions"]]),
  -- /accept (all )?cookies/i
  (true, cats [lit "accept ", opt (lit "all "), lit "cookies"]),
  -- /^(submit|cancel|ok|yes|no|close|save|delete)$/i
  (true, cats [bol, litAlt ["submit", "cancel", "ok", "yes", "no", "close", "save", "delete"], eol]),
  -- /^(name|email|password|username|phone|address)$/i
  (true, cats [bol, litAlt ["name", "email", "password", "username", "phone", "address"], eol]),
  -- /^(select|choose|pick|enter)/i
  (true, cats [bol, litAlt ["select", "choose", "pick", "enter"]]),
  -- /make the most (of|out of)/i
  (true, cats [lit "make the most ", alts [lit "of", lit "out of"]]),
  -- /customiz(e|ing) your (profile|settings|experience)/i
  (true, cats [lit "customiz", alts [chr 'e', lit "ing"], lit " your ",
    litAlt ["profile", "settings", "experience"]]),
  -- /have a (complex )?challenge/i
  (true, cats [lit "have a ", opt (lit "complex "), lit "challenge"]),
  -- /need (some )?help\??/i
  (true, cats [lit "need ", opt (lit "some "), lit "help", opt (chr '?')]),
  -- /free trial/i
  (true, lit "free trial"),
  -- /limited time offer/i
  (true, lit "limited time offer"),
  -- /act now/i
  (true, lit "act now"),
  -- /don\x27t miss (out|this)/i
  (true, cats [lit "don", chr apoChar, lit "t miss ", alts [lit "out", lit "this"]]),
  -- /forbes reveals/i
  (true, lit "forbes reveals"),
  -- /\d+x cheaper than/i
  (true, cats [plus dg, lit "x cheaper than"]),
  -- /cheaper than ozempic/i
  (true, lit "cheaper than ozempic"),
  -- /best .* programmes?/i
  (true, cats [lit "best ", star anychar, lit " programme", opt (chr 's')]),
  -- /\(\d+x cheaper/i
  (true, cats [chr '(', plus dg, lit "x cheaper"]),
  -- /^"[^"]+"\s*[-—]/ (quotes with an attribution dash, case-sensitive)
  (false, cats [bol, chr '"', plus (cls true [('"', '"')]), chr '"', star sp,
    cls false [('-', '-'), (emDashChar, emDashChar)]]),
  -- /breeds reptiles of the mind/i
  (true, lit "breeds reptiles of the mind"),
  -- /like standing water/i
  (true, lit "like standing water"),
  -- /^(the|a|an|this|that|these|those|in|on|at|by|for|with|to)\s+\w+$/i
  (true, cats [bol, litAlt ["the", "a", "an", "this", "that", "these", "those", "in", "on",
    "at", "by", "for", "with", "to"], plus sp, plus wd, eol]),
  -- /^[^.!?]{0,15}$/
  (false, cats [bol, repMax (cls true [('.', '.'), ('!', '!'), ('?', '?')]) 15, eol]),
  -- /^\s*(photo|image|video|credit|source|courtesy|via|by)\s*[:\|]/i
  (true, cats [bol, star sp,
    litAlt ["photo", "image", "video", "credit", "source", "courtesy", "via", "by"], star sp,
    cls false [(':', ':'), ('|', '|')]]),
  -- /\((ap|reuters|getty|afp|epa)\)/i
  (true, cats [chr '(', litAlt ["ap", "reuters", "getty", "afp", "epa"], chr ')']),
  -- /\.(jpg|jpeg|png|gif|mp4|webp)/i
  (true, cats [chr '.', litAlt ["jpg", "jpeg", "png", "gif", "mp4", "webp"]]),
  -- /^by\s+[A-Z][a-z]+/i
  (true, cats [bol, lit "by", plus sp, cls false [('A', 'Z')], plus (cls false [('a', 'z')])]),
  -- /staff (writer|reporter|correspondent)/i
  (true, cats [lit "staff ", litAlt ["writer", "reporter", "correspondent"]]),
  -- /contributing (writer|editor)/i
  (true, cats [lit "contributing ", litAlt ["writer", "editor"]]),
  -- /newsletter/i
  (true, lit "newsletter"),
  -- /sign up (for|to)/i
  (true, cats [lit "sign up ", alts [lit "for", lit "to"]]),
  -- /get (our|the) (newsletter|updates)/i
  (true, cats [lit "get ", alts [lit "our", lit "the"], lit " ", litAlt ["newsletter", "updates"]]),
  -- /subscribe (to|for)/i
  (true, cats [lit "subscribe ", alts [lit "to", lit "for"]]),
  -- /^(related|see also|more from|recommended|you may also like)/i
  (true, cats [bol, litAlt ["related", "see also", "more from", "recommended", "you may also like"]]),
  -- /^(trending|popular|most read|top stories)/i
  (true, cats [bol, litAlt ["trending", "popular", "most read", "top stories"]]),
  -- /^(trusted by|used by|loved by|recommended by)/i
  (true, cats [bol, litAlt ["trusted by", "used by", "loved by", "recommended by"]]),
  -- /^(as seen on|featured in)/i
  (true, cats [bol, litAlt ["as seen on", "featured in"]]),
  -- /^(function|const|let|var|import|export|class)\s/ (case-sensitive)
  (false, cats [bol, litAlt ["function", "const", "let", "var", "import", "export", "class"], sp]),
  -- /^\x7b|\x7d$/ (braces, case-sensitive)
  (false, alt (cat bol (chr (Char.ofNat 123))) (cat (chr (Char.ofNat 125)) eol)),
  -- /^<\/?[a-z]+/i
  (true, cats [bol, chr '<', opt (chr '/'), plus (cls false [('a', 'z')])])]

/-- The source loop over `JUNK_PATTERNS` that returns on the first match. -/
def testAnyJunkPattern (text : String) : Bool :=
  JUNK_PATTERNS.any fun p => reTest p text

open RE in
/-- The verb-structure heuristic
`/\b(is|are|was|were|has|have|had|shows?|found|said|says|claims?|proves?|causes?|prevents?|reduces?|increases?|kills?|cures?|treats?|affects?|linked|associated|connected|confirmed|demonstrated|revealed)\b/i`. -/
def verbPatterns : Bool × RE :=
  (true, cats [wordB, alts [lit "is", lit "are", lit "was", lit "were", lit "has", lit "have",
    lit "had", wordOptS "show", lit "found", lit "said", lit "says", wordOptS "claim",
    wordOptS "prove", wordOptS "cause", wordOptS "prevent", wordOptS "reduce",
    wordOptS "increase", wordOptS "kill", wordOptS "cure", wordOptS "treat", wordOptS "affect",
    lit "linked", lit "associated", lit "connected", lit "confirmed", lit "demonstrated",
    lit "revealed"], wordB])

open RE in
/-- The meaningful-statistics pattern
`/(\d+(?:\.\d+)?)\s*(%|percent|million|billion|thousand|times|fold|people|patients|deaths|cases)/i`. -/
def meaningfulStats : Bool × RE :=
  (true, cats [plus dg, opt (cat (chr '.') (plus dg)), star sp,
    alts [chr '%', lit "percent", lit "million", lit "billion", lit "thousand", lit "times",
      lit "fold", lit "people", lit "patients", lit "deaths", lit "cases"]])

open RE in
/-- The authoritative-entity pattern
`/(FDA|CDC|WHO|NIH|NHS|EPA|FBI|CIA|DOJ|government|president|congress|senate|supreme court|university|study|research|scientist|doctor|expert|professor|official|spokesman|spokesperson)/i`. -/
def entityPatterns : Bool × RE :=
  (true, litAlt ["FDA", "CDC", "WHO", "NIH", "NHS", "EPA", "FBI", "CIA", "DOJ", "government",
    "president", "congress", "senate", "supreme court", "university", "study", "research",
    "scientist", "doctor", "expert", "professor", "official", "spokesman", "spokesperson"])

open RE in
/-- The claim-trigger pattern
`/(according to|study (shows?|found|proves?)|research (shows?|found|proves?)|experts? (say|believe|warn|agree)|scientists? (found|discovered|say)|data (shows?|suggests?|indicates?)|evidence (shows?|suggests?)|proven (to|that)|confirmed (that|to)|linked to|associated with)/i`. -/
def claimTriggers : Bool × RE :=
  (true, alts [lit "according to",
    cats [lit "study ", alts [wordOptS "show", lit "found", wordOptS "prove"]],
    cats [lit "research ", alts [wordOptS "show", lit "found", wordOptS "prove"]],
    cats [lit "expert", opt (chr 's'), chr ' ',
      alts [lit "say", lit "believe", lit "warn", lit "agree"]],
    cats [lit "scientist", opt (chr 's'), chr ' ',
      alts [lit "found", lit "discovered", lit "say"]],
    cats [lit "data ", alts [wordOptS "show", wordOptS "suggest", wordOptS "indicate"]],
    cats [lit "evidence ", alts [wordOptS "show", wordOptS "suggest"]],
    cats [lit "proven ", alts [lit "to", lit "that"]],
    cats [lit "confirmed ", alts [lit "that", lit "to"]],
    lit "linked to", lit "associated with"])

open RE in
/-- The imperative-opening pattern
`/^(go|get|try|buy|click|sign|join|make|do|don\x27t|never|always|start|stop|check|see|watch|read|find|discover)\b/i`. -/
def imperativePattern : Bool × RE :=
  (true, cats [bol, alts [lit "go", lit "get", lit "try", lit "buy", lit "click", lit "sign",
    lit "join", lit "make", lit "do", cats [lit "don", chr apoChar, lit "t"], lit "never",
    lit "always", lit "start", lit "stop", lit "check", lit "see", lit "watch", lit "read",
    lit "find", lit "discover"], wordB])

open RE in
/-- The first-person-opening pattern `/^(I|my|we|our)\b/i`. -/
def firstPersonPattern : Bool × RE :=
  (true, cats [bol, litAlt ["I", "my", "we", "our"], wordB])

open RE in
/-- The ellipsis pattern `/\.\x7b3\x7d|…/`. -/
def ellipsisPattern : Bool × RE :=
  (false, alt (lit "...") (chr hellipChar))

open RE in
/-- The sentence-ending-punctuation pattern `/[.!]$/`, applied by the scorer
to the trimmed text. -/
def endPunctPattern : Bool × RE :=
  (false, cats [cls false [('.', '.'), ('!', '!')], eol])

/-- Number of decimal digits in a text, the JS `(text.match(/\d/g) || []).length`. -/
def digitCount (text : String) : Nat :=
  text.data.countP fun c => charInRanges digitRanges c

/-- Number of uppercase ASCII letters, the JS `(text.match(/[A-Z]/g) || []).length`. -/
def capsCount (text : String) : Nat :=
  text.data.countP fun c => charInRanges [('A', 'Z')] c

/-- Result record of the worthiness scorer (`ClaimWorthinessResult`). -/
structure ClaimWorthinessResult where
  isWorthy : Bool
  score : Int
  reasons : List String
deriving Repr, DecidableEq

/-- Running accumulator of the scoring section of `assessClaimWorthiness`:
the mutable `score`, `positiveSignals` and `reasons` locals. -/
structure ScoreAcc where
  score : Int
  positiveSignals : Nat
  reasons : List String
deriving Repr, DecidableEq

/-- The signal/penalty accumulation of `assessClaimWorthiness`, in source
order, starting from `score = 0`, `positiveSignals = 0`, `reasons = []`. -/
def scoreAccumulate (text : String) : ScoreAcc :=
  let acc : ScoreAcc := { score := 0, positiveSignals := 0, reasons := [] }
  -- Reject if it lacks proper sentence structure (no ending punctuation)
  let acc := if reTest endPunctPattern text.trim then acc else
    { acc with score := acc.score - 20, reasons := acc.reasons ++ ["No sentence-ending punctuation"] }
  -- Check for subject-verb structure
  let acc := if reTest verbPatterns text then
    { acc with
      score := acc.score + 15,
      positiveSignals := acc.positiveSignals + 1,
      reasons := acc.reasons ++ ["Has verb structure"] } else acc
  -- Contains meaningful statistics (not just any number)
  let acc := if reTest meaningfulStats text then
    { acc with
      score := acc.score + 35,
      positiveSignals := acc.positiveSignals + 1,
      reasons := acc.reasons ++ ["Contains meaningful statistics"] }
    else if reTest (false, RE.plus dg) text then
      { acc with score := acc.score + 10, reasons := acc.reasons ++ ["Contains numbers"] }
    else acc
  -- References authoritative organizations/entities
  let acc := if reTest entityPatterns text then
    { acc with
      score := acc.score + 30,
      positiveSignals := acc.positiveSignals + 1,
      reasons := acc.reasons ++ ["References authoritative entity"] } else acc
  -- Contains strong claim trigger phrases
  let acc := if reTest claimTriggers text then
    { acc with
      score := acc.score + 30,
      positiveSignals := acc.positiveSignals + 1,
      reasons := acc.reasons ++ ["Has claim trigger phrase"] } else acc
  -- Penalty for question marks
  let acc := if text.data.contains '?' then
    { acc with score := acc.score - 50, reasons := acc.reasons ++ ["Is a question"] } else acc
  -- Penalty for imperative/command structure
  let acc := if reTest imperativePattern text then
    { acc with
      score := acc.score - 40,
      reasons := acc.reasons ++ ["Appears to be imperative/command"] } else acc
  -- Penalty for first person
  let acc := if reTest firstPersonPattern text then
    { acc with
      score := acc.score - 30,
      reasons := acc.reasons ++ ["First person (opinion indicator)"] } else acc
  -- Penalty for ellipsis
  let acc := if reTest ellipsisPattern text then
    { acc with
      score := acc.score - 15,
      reasons := acc.reasons ++ ["Contains ellipsis (incomplete)"] } else acc
  -- Penalty for excessive capitalization: capsRatio > 0.3
  let acc := if 3 * text.length < 10 * capsCount text then
    { acc with score := acc.score - 25, reasons := acc.reasons ++ ["Excessive capitalization"] }
    else acc
  -- Bonus for longer, more detailed claims
  let acc := if 80 < text.length ∧ text.length ≤ 300 then
    { acc with score := acc.score + 10, reasons := acc.reasons ++ ["Substantive length"] }
    else acc
  acc

/-- Embedding of `assessClaimWorthiness` of the claim detector. String length is measured
in characters (identical to the JS UTF-16 length on the texts under study),
and the digit/caps ratio comparisons `count / length > 0.3` are written as
the equivalent integer comparisons `3 * length < 10 * count`. -/
def assessClaimWorthiness (text : String) : ClaimWorthinessResult :=
  -- Check against junk patterns first
  if testAnyJunkPattern text then
    { isWorthy := false, score := 0, reasons := ["Matches junk pattern"] }
  -- Minimum length check
  else if text.length < 40 then
    { isWorthy := false, score := 0, reasons := ["Too short (min 40 chars)"] }
  -- Maximum length check
  else if 400 < text.length then
    { isWorthy := false, score := 0, reasons := ["Too long (max 400 chars)"] }
  -- Reject if it is mostly numbers: numericRatio > 0.3
  else if 3 * text.length < 10 * digitCount text then
    { isWorthy := false, score := 0, reasons := ["Too many numbers (likely data/table)"] }
  else
    let acc := scoreAccumulate text
    -- REQUIRE at least one positive signal to be considered worthy
    if acc.positiveSignals = 0 then
      { isWorthy := false,
        score := acc.score,
        reasons := acc.reasons ++ ["No positive verification signals"] }
    else
      { isWorthy := decide (40 ≤ acc.score), score := acc.score, reasons := acc.reasons }

/-- The euro-sign character. -/
def euroChar : Char := Char.ofNat 0x20AC

/-- Claim categories (`ClaimType`). -/
inductive ClaimType where
  | statistic
  | quote
  | event
  | attribution
deriving Repr, DecidableEq

/-- The domain `Claim` record, restricted to the fields the verified
properties inspect. The source additionally stores extracted entities,
capture metadata (`extractedFrom`: URL/domain/timestamp) and a DOM position
(offsets and XPath); those are page- and clock-bound and are not consulted by
any of the logic embedded here. Claim ids in the source come from
`claim_${Date.now()}_${++claimCounter}`; the counter is incremented once per
pushed claim in scan order, so ids are modelled by numbering the raw claim
list with an injected scan time. -/
structure Claim where
  id : String
  text : String
  normalizedText : String
  claimType : ClaimType
deriving Repr, DecidableEq

/-- Characters ending a sentence for boundary search (`/[.!?\n]/`). -/
def isSentenceBreak (c : Char) : Bool := c == '.' || c == '!' || c == '?' || c == '\n'

/-- Terminal punctuation (`/[.!?]/`). -/
def isTerminalPunct (c : Char) : Bool := c == '.' || c == '!' || c == '?'

/-- A JS `\s` character. -/
def isSpaceChar (c : Char) : Bool := charInRanges spaceRanges c

/-- The `while (start > 0 && !/[.!?\n]/.test(text[start - 1])) start--` loop
of `findClaimBoundary`. -/
def sentenceStart (t : List Char) : Nat → Nat
  | 0 => 0
  | s + 1 =>
    match t.get? s with
    | some c => if isSentenceBreak c then s + 1 else sentenceStart t s
    | none => sentenceStart t s

/-- The `while (end < text.length && !/[.!?\n]/.test(text[end])) end++` loop
of `findClaimBoundary`, with fuel for termination. -/
def sentenceEndAux (t : List Char) : Nat → Nat → Nat
  | 0, e => e
  | f + 1, e =>
    match t.get? e with
    | some c => if isSentenceBreak c then e else sentenceEndAux t f (e + 1)
    | none => e

/-- The `while (start < matchStart && /\s/.test(text[start])) start++` loop
of `findClaimBoundary`, with fuel for termination. -/
def skipSpacesAux (t : List Char) (matchStart : Nat) : Nat → Nat → Nat
  | 0, s => s
  | f + 1, s =>
    if s < matchStart then
      match t.get? s with
      | some c => if isSpaceChar c then skipSpacesAux t matchStart f (s + 1) else s
      | none => s
    else s

/-- Embedding of `findClaimBoundary` of the claim detector: expand a pattern match to the
enclosing sentence, include the ending punctuation, and trim leading
whitespace up to the match start. -/
def findClaimBoundary (t : List Char) (matchStart matchEnd : Nat) : Nat × Nat :=
  let start := sentenceStart t matchStart
  let e := sentenceEndAux t (t.length + 1) matchEnd
  let e :=
    match t.get? e with
    | some c => if isTerminalPunct c then e + 1 else e
    | none => e
  let start := skipSpacesAux t matchStart (matchStart + 1) start
  (start, e)

/-- JS `text.slice(a, b)` on a character list. -/
def sliceStr (t : List Char) (a b : Nat) : String := ((t.take b).drop a).asString

open RE in
/-- Embedding of `(\d+(?:\.\d+)?)`: a number with an optional decimal part. -/
def numRE : RE := cats [plus dg, opt (cat (chr '.') (plus dg))]

open RE in
/-- Embedding of `(\d+(?:,\d{3})*(?:\.\d+)?)`: a number with thousands separators and
an optional decimal part. -/
def numCommaRE : RE := cats [plus dg, star (cats [chr ',', dg, dg, dg]),
  opt (cat (chr '.') (plus dg))]

open RE in
/-- Embedding of `STATISTIC_PATTERNS` of the claim detector, in source order, each paired
with its `i` flag (only the first percentage pattern is case-sensitive). -/
def STATISTIC_PATTERNS : List (Bool × RE) := [
  -- /(\d+(?:\.\d+)?)\s*%/g
  (false, cats [numRE, star sp, chr '%']),
  -- /(\d+(?:\.\d+)?)\s*percent/gi
  (true, cats [numRE, star sp, lit "percent"]),
  -- /(numC)\s*(people|patients|cases|deaths|americans|children|adults|women|men|users|participants|subjects)/gi
  (true, cats [numCommaRE, star sp, litAlt ["people", "patients", "cases", "deaths",
    "americans", "children", "adults", "women", "men", "users", "participants", "subjects"]]),
  -- /(numC)\s*(million|billion|thousand|hundred)/gi
  (true, cats [numCommaRE, star sp, litAlt ["million", "billion", "thousand", "hundred"]]),
  -- /(numC)\s*(dollars|euros|\$|€)/gi
  (true, cats [numCommaRE, star sp, alts [lit "dollars", lit "euros", chr '$', chr euroChar]]),
  -- /\$(numC)\s*(million|billion|thousand)?/gi
  (true, cats [chr '$', numCommaRE, star sp, opt (litAlt ["million", "billion", "thousand"])]),
  -- /(\d+)\s*(?:out of|in)\s*(\d+)/gi
  (true, cats [plus dg, star sp, alts [lit "out of", lit "in"], star sp, plus dg]),
  -- /(num)\s*times\s*(more|less|higher|lower|greater|as likely|as much)/gi
  (true, cats [numRE, star sp, lit "times", star sp,
    litAlt ["more", "less", "higher", "lower", "greater", "as likely", "as much"]]),
  -- /(num)\s*-?\s*fold\s*(increase|decrease|higher|lower|more|less)?/gi
  (true, cats [numRE, star sp, opt (chr '-'), star sp, lit "fold", star sp,
    opt (litAlt ["increase", "decrease", "higher", "lower", "more", "less"])]),
  -- /reduces?\s*(?:risk|chance|likelihood)?\s*by\s*(num)/gi
  (true, cats [lit "reduce", opt (chr 's'), star sp,
    opt (litAlt ["risk", "chance", "likelihood"]), star sp, lit "by", star sp, numRE]),
  -- /increases?\s*(?:risk|chance|likelihood)?\s*by\s*(num)/gi
  (true, cats [lit "increase", opt (chr 's'), star sp,
    opt (litAlt ["risk", "chance", "likelihood"]), star sp, lit "by", star sp, numRE]),
  -- /(doubled|tripled|quadrupled|halved)/gi
  (true, litAlt ["doubled", "tripled", "quadrupled", "halved"]),
  -- /rose\s*(?:by\s*)?(num)/gi
  (true, cats [lit "rose", star sp, opt (cat (lit "by") (star sp)), numRE]),
  -- /fell\s*(?:by\s*)?(num)/gi
  (true, cats [lit "fell", star sp, opt (cat (lit "by") (star sp)), numRE]),
  -- /grew\s*(?:by\s*)?(num)/gi
  (true, cats [lit "grew", star sp, opt (cat (lit "by") (star sp)), numRE]),
  -- /dropped\s*(?:by\s*)?(num)/gi
  (true, cats [lit "dropped", star sp, opt (cat (lit "by") (star sp)), numRE]),
  -- /(\d+)\s*(year|month|week|day|hour)s?\s*(ago|later|earlier)/gi
  (true, cats [plus dg, star sp, litAlt ["year", "month", "week", "day", "hour"], opt (chr 's'),
    star sp, litAlt ["ago", "later", "earlier"]]),
  -- /since\s*(\d{4})/gi
  (true, cats [lit "since", star sp, dg, dg, dg, dg]),
  -- /between\s*(\d{4})\s*and\s*(\d{4})/gi
  (true, cats [lit "between", star sp, dg, dg, dg, dg, star sp, lit "and", star sp,
    dg, dg, dg, dg]),
  -- /(first|second|third|fourth|fifth|\d+(?:st|nd|rd|th))\s*(largest|smallest|biggest|highest|lowest|most|least)/gi
  (true, cats [alts [lit "first", lit "second", lit "third", lit "fourth", lit "fifth",
    cats [plus dg, litAlt ["st", "nd", "rd", "th"]]], star sp,
    litAlt ["largest", "smallest", "biggest", "highest", "lowest", "most", "least"]]),
  -- /ranked?\s*#?\s*(\d+)/gi
  (true, cats [lit "ranke", opt (chr 'd'), star sp, opt (chr '#'), star sp, plus dg]),
  -- /top\s*(\d+)/gi
  (true, cats [lit "top", star sp, plus dg])]

open RE in
/-- Embedding of `CLAIM_TRIGGER_PATTERNS` of the claim detector, in source order; all
carry the `i` flag. -/
def CLAIM_TRIGGER_PATTERNS : List (Bool × RE) := [
  -- /stud(?:y|ies)\s+(?:show|found|suggest|reveal|indicate|demonstrate|confirm)/gi
  (true, cats [lit "stud", alts [chr 'y', lit "ies"], plus sp,
    litAlt ["show", "found", "suggest", "reveal", "indicate", "demonstrate", "confirm"]]),
  -- /research\s+(?:show|found|suggest|reveal|indicate|demonstrate|confirm)/gi
  (true, cats [lit "research", plus sp,
    litAlt ["show", "found", "suggest", "reveal", "indicate", "demonstrate", "confirm"]]),
  -- /scientists?\s+(?:found|discovered|say|claim|believe|confirmed)/gi
  (true, cats [lit "scientist", opt (chr 's'), plus sp,
    litAlt ["found", "discovered", "say", "claim", "believe", "confirmed"]]),
  -- /researchers?\s+(?:found|discovered|say|claim|believe|confirmed)/gi
  (true, cats [lit "researcher", opt (chr 's'), plus sp,
    litAlt ["found", "discovered", "say", "claim", "believe", "confirmed"]]),
  -- /experts?\s+(?:say|warn|believe|agree|recommend|advise)/gi
  (true, cats [lit "expert", opt (chr 's'), plus sp,
    litAlt ["say", "warn", "believe", "agree", "recommend", "advise"]]),
  -- /doctors?\s+(?:say|warn|believe|agree|recommend|advise)/gi
  (true, cats [lit "doctor", opt (chr 's'), plus sp,
    litAlt ["say", "warn", "believe", "agree", "recommend", "advise"]]),
  -- /according\s+to\s+(?:a\s+)?(?:new\s+)?(?:study|research|data|report|survey|poll|analysis)/gi
  (true, cats [lit "according", plus sp, lit "to", plus sp, opt (cats [chr 'a', plus sp]),
    opt (cats [lit "new", plus sp]),
    litAlt ["study", "research", "data", "report", "survey", "poll", "analysis"]]),
  -- /data\s+(?:show|suggest|indicate|reveal)/gi
  (true, cats [lit "data", plus sp, litAlt ["show", "suggest", "indicate", "reveal"]]),
  -- /(?:is|are|was|were)\s+(?:proven|shown|confirmed|linked|associated|connected)\s+to/gi
  (true, cats [litAlt ["is", "are", "was", "were"], plus sp,
    litAlt ["proven", "shown", "confirmed", "linked", "associated", "connected"], plus sp,
    lit "to"]),
  -- /has\s+been\s+(?:proven|shown|confirmed|linked|associated|connected)/gi
  (true, cats [lit "has", plus sp, lit "been", plus sp,
    litAlt ["proven", "shown", "confirmed", "linked", "associated", "connected"]]),
  -- /causes?\s+(?:cancer|disease|death|illness|damage|harm)/gi
  (true, cats [lit "cause", opt (chr 's'), plus sp,
    litAlt ["cancer", "disease", "death", "illness", "damage", "harm"]]),
  -- /prevents?\s+(?:cancer|disease|death|illness|damage|harm)/gi
  (true, cats [lit "prevent", opt (chr 's'), plus sp,
    litAlt ["cancer", "disease", "death", "illness", "damage", "harm"]]),
  -- /cures?\s+(?:cancer|disease|illness)/gi
  (true, cats [lit "cure", opt (chr 's'), plus sp, litAlt ["cancer", "disease", "illness"]]),
  -- /more\s+(?:effective|dangerous|harmful|beneficial|likely)\s+than/gi
  (true, cats [lit "more", plus sp,
    litAlt ["effective", "dangerous", "harmful", "beneficial", "likely"], plus sp, lit "than"]),
  -- /less\s+(?:effective|dangerous|harmful|beneficial|likely)\s+than/gi
  (true, cats [lit "less", plus sp,
    litAlt ["effective", "dangerous", "harmful", "beneficial", "likely"], plus sp, lit "than"]),
  -- /the\s+(?:most|least|best|worst|safest|deadliest)/gi
  (true, cats [lit "the", plus sp,
    litAlt ["most", "least", "best", "worst", "safest", "deadliest"]]),
  -- /always|never|every|all|none|no\s+one/gi
  (true, alts [lit "always", lit "never", lit "every", lit "all", lit "none",
    cats [lit "no", plus sp, lit "one"]]),
  -- /definitely|certainly|absolutely|undoubtedly/gi
  (true, litAlt ["definitely", "certainly", "absolutely", "undoubtedly"]),
  -- /proven\s+(?:to|that)/gi
  (true, cats [lit "proven", plus sp, alts [lit "to", lit "that"]]),
  -- /fact\s+(?:is|that)/gi
  (true, cats [lit "fact", plus sp, alts [lit "is", lit "that"]])]

/-- Embedding of `detectPatternClaims` of the claim detector (content MVP version): for
each pattern, walk all matches in the node text, expand each to its sentence
boundary, and keep sentences of acceptable length. Ids are assigned
afterwards (see `Claim`); range construction is a DOM effect with no bearing
on the produced claim values. -/
def detectPatternClaims (nodeText : String) (patterns : List (Bool × RE))
    (claimType : ClaimType) : List Claim :=
  patterns.foldl (fun claims p =>
    claims ++ (execAll p nodeText).filterMap (fun m =>
      let boundary := findClaimBoundary nodeText.data m.1 m.2
      let sentenceText := (sliceStr nodeText.data boundary.1 boundary.2).trim
      -- Skip if too short
      if sentenceText.length < 20 then none
      -- Skip if too long (probably grabbed too much)
      else if 500 < sentenceText.length then none
      else some { id := "", text := sentenceText,
                  normalizedText := sentenceText.toLower.trim, claimType := claimType })) []

/-- Assign the `claim_${t}_${counter}` ids, numbering the claims in the order
they were pushed. -/
def assignClaimIds (t : Nat) (cs : List Claim) : List Claim :=
  cs.enum.map fun e => { e.2 with id := "claim_" ++ toString t ++ "_" ++ toString (e.1 + 1) }

/-- The claim collection loop of `detectClaims`, before deduplication: scan
every text node for statistic patterns, then for claim-trigger patterns. The
text nodes accepted by the DOM `TreeWalker` are supplied as a list of their
text contents, and `t` is the scan time feeding id generation. -/
def rawDetectedClaims (t : Nat) (textNodes : List String) : List Claim :=
  assignClaimIds t (textNodes.foldl (fun claims nodeText =>
    claims ++ detectPatternClaims nodeText STATISTIC_PATTERNS ClaimType.statistic
           ++ detectPatternClaims nodeText CLAIM_TRIGGER_PATTERNS ClaimType.event) [])

/-- The loop body of `deduplicateClaims`, carrying the `seen` set of
normalized texts. -/
def deduplicateClaimsAux : List Claim → List String → List Claim
  | [], _ => []
  | c :: rest, seen =>
    if seen.contains c.normalizedText then deduplicateClaimsAux rest seen
    else c :: deduplicateClaimsAux rest (c.normalizedText :: seen)

/-- Embedding of `deduplicateClaims` of the claim detector: keep the first claim bearing
each normalized text. -/
def deduplicateClaims (claims : List Claim) : List Claim := deduplicateClaimsAux claims []

/-- Embedding of `detectClaims`: collect raw claims from every text node, then
deduplicate. -/
def detectClaims (t : Nat) (textNodes : List String) : List Claim :=
  deduplicateClaims (rawDetectedClaims t textNodes)

/-- The rating vocabulary (stable contract with collaborators and UI). -/
inductive Rating where
  | verified
  | mostly_true
  | mixed
  | unverified
  | mostly_false
  | false
  | opinion
  | outdated
deriving Repr, DecidableEq

/-- Embedding of `RATING_COLORS`: the fixed color for each rating. -/
def RATING_COLORS : Rating → String
  | .verified => "#22c55e"
  | .mostly_true => "#84cc16"
  | .mixed => "#eab308"
  | .unverified => "#9ca3af"
  | .mostly_false => "#f97316"
  | .false => "#ef4444"
  | .opinion => "#8b5cf6"
  | .outdated => "#6b7280"

/-- Embedding of `RATING_LABELS`: the display label for each rating. -/
def RATING_LABELS : Rating → String
  | .verified => "Verified"
  | .mostly_true => "Mostly True"
  | .mixed => "Mixed Evidence"
  | .unverified => "Unverified"
  | .mostly_false => "Mostly False"
  | .false => "False"
  | .opinion => "Opinion"
  | .outdated => "Outdated"

/-- A JS `Date` value: either `new Date()` taken at an injected model time,
or `new Date(s)` parsed from a string. -/
inductive DateV where
  | now (t : Nat)
  | parsed (s : String)
deriving Repr, DecidableEq

/-- The `Evidence` record. `sourceType` keeps its literal string form. -/
structure Evidence where
  sourceId : String
  sourceName : String
  sourceType : String
  reliability : Rat
  relevance : Rat
  supports : Bool
  excerpt : String
  url : String
  retrievedAt : DateV
  publicationDate : Option DateV
  peerReviewed : Option Bool
deriving Repr, DecidableEq

/-- The `Verification` record produced by the external collaborator. -/
structure Verification where
  claimId : String
  rating : Rating
  confidence : Rat
  summary : String
  evidence : List Evidence
  lastUpdated : DateV
  humanReviewed : Bool
  reasoning : Option String
  caveats : Option (List String)
deriving Repr, DecidableEq

/-- Association-list model of a JS `Map` (insertion-ordered; `set` replaces
in place, `get` finds by key). -/
def mapGet {α : Type} (m : List (String × α)) (k : String) : Option α :=
  (m.find? fun e => e.1 == k).map (fun e => e.2)

/-- Embedding of `Map.set`: replace the existing entry in place, else append. -/
def mapSet {α : Type} (m : List (String × α)) (k : String) (v : α) : List (String × α) :=
  if (m.find? fun e => e.1 == k).isSome then
    m.map fun e => if e.1 == k then (k, v) else e
  else m ++ [(k, v)]

/-- Embedding of `Map.delete`. -/
def mapDelete {α : Type} (m : List (String × α)) (k : String) : List (String × α) :=
  m.filter fun e => !(e.1 == k)

/-- An evidence item of the backend response (`ApiVerification.evidence`). -/
structure ApiEvidence where
  url : String
  sourceName : String
  quote : Option String
  datePublished : Option String
  peerReviewed : Option Bool
deriving Repr, DecidableEq

/-- A verification of the backend response. The source carries the rating as
a plain string and casts it unchecked onto the vocabulary
(`api.rating as Verification[...]`); the embedding identifies the field with
the vocabulary directly. -/
structure ApiVerification where
  claimId : String
  rating : Rating
  confidence : Rat
  summary : String
  evidence : List ApiEvidence
  checkedAt : String
  caveats : Option (List String)
deriving Repr, DecidableEq

/-- The body of a successful backend `/api/verify` response (the optional
`meta` block is only logged and is not modelled). -/
structure ApiVerifyResponse where
  verifications : List ApiVerification
  cached : Bool
deriving Repr, DecidableEq

/-- Outcome of the `fetch` to the backend: a parsed OK response, or a
transport failure (network error or a non-OK status, both of which reach the
`catch` block). -/
inductive FetchOutcome where
  | ok (data : ApiVerifyResponse)
  | failure
deriving Repr, DecidableEq

/-- Embedding of `toVerification`: convert an API verification to the extension type.
`now` is the model time of the call; `genSourceId` injects the
`src_${Date.now()}_${random}` generator, indexed by evidence position. -/
def toVerification (now : Nat) (genSourceId : Nat → String)
    (api : ApiVerification) : Verification :=
  { claimId := api.claimId,
    rating := api.rating,
    confidence := api.confidence,
    summary := api.summary,
    evidence := api.evidence.enum.map fun e =>
      { sourceId := genSourceId e.1,
        sourceName := e.2.sourceName,
        sourceType := "fact_check",
        reliability := (8 : Rat) / 10,
        relevance := (9 : Rat) / 10,
        supports := !(api.rating == Rating.false || api.rating == Rating.mostly_false),
        excerpt := e.2.quote.getD "",
        url := e.2.url,
        retrievedAt := DateV.now now,
        publicationDate := e.2.datePublished.map DateV.parsed,
        peerReviewed := e.2.peerReviewed },
    lastUpdated := DateV.parsed api.checkedAt,
    humanReviewed := Bool.false,
    reasoning := none,
    caveats := api.caveats }

/-- The per-claim fallback written by the `catch` block of
`verifyClaimsApi`. -/
def fallbackVerification (now : Nat) (claimId : String) : Verification :=
  { claimId := claimId,
    rating := Rating.unverified,
    confidence := 0,
    summary := "Unable to verify - backend service unavailable. Please ensure the backend server is running.",
    evidence := [],
    lastUpdated := DateV.now now,
    humanReviewed := Bool.false,
    reasoning := none,
    caveats := some ["Backend service unavailable"] }

/-- Embedding of `verifyClaimsApi`: on success, map the response verifications by claim
id; on transport failure, fall back to an unverified result for every claim
of the batch. -/
def verifyClaimsApi (claims : List Claim) (outcome : FetchOutcome) (now : Nat)
    (genSourceId : Nat → String) : List (String × Verification) :=
  let results : List (String × Verification) := []
  if claims.length = 0 then results
  else
    match outcome with
    | FetchOutcome.ok data =>
      data.verifications.foldl
        (fun m apiV => mapSet m apiV.claimId (toVerification now genSourceId apiV)) results
    | FetchOutcome.failure =>
      claims.foldl (fun m claim => mapSet m claim.id (fallbackVerification now claim.id)) results

/-- A client rectangle, with exact rational coordinates standing in for the
float coordinates of `DOMRect` (the embedded code only copies them and adds
scroll offsets). -/
structure Rect where
  top : Rat
  left : Rat
  width : Rat
  height : Rat
deriving Repr, DecidableEq

/-- An overlay marker element: its owner claim, its `data-rating` attribute,
its absolute document position, and the two rating-derived style
declarations the source writes (`background-color` and `border-bottom`). -/
structure Overlay where
  claimId : String
  dataRating : Rating
  top : Rat
  left : Rat
  width : Rat
  height : Rat
  backgroundColor : String
  borderBottom : String
deriving Repr, DecidableEq

/-- The live `TrackedClaim` session record of the highlighter. -/
structure TrackedClaim where
  claimId : String
  claimText : String
  verification : Option Verification
  overlayElements : List Overlay
  originalRects : Option (List Rect)
deriving Repr, DecidableEq

/-- A tooltip element. Its inner HTML is generated from the owning claim
verification on creation; the embedding records the owner, which determines
the content. On-screen tooltip geometry (computed in a rAF callback from
DOM measurements) is not modelled. -/
structure Tooltip where
  claimId : String
deriving Repr, DecidableEq

/-- The module-level mutable state of the highlighter: the `trackedClaims`
and `pendingVerifications` maps, the set of tooltip elements currently in
`document.body`, the `activeTooltip` / `activeTooltipClaimId` references and
the pending `tooltipHideTimeout` handle (carrying its delay). -/
structure HighlighterState where
  trackedClaims : List (String × TrackedClaim)
  pendingVerifications : List (String × Verification)
  tooltips : List Tooltip
  activeTooltip : Option Tooltip
  activeTooltipClaimId : Option String
  tooltipHideTimeout : Option Nat
deriving Repr, DecidableEq

/-- The empty initial highlighter state. -/
def initialHighlighterState : HighlighterState :=
  { trackedClaims := [],
    pendingVerifications := [],
    tooltips := [],
    activeTooltip := none,
    activeTooltipClaimId := none,
    tooltipHideTimeout := none }

/-- The document environment read by the highlighter: `findTextRects` (the
text re-search over the current DOM, returning client rectangles) and the
current scroll offsets. -/
structure DocEnv where
  findTextRects : String → List Rect
  scrollX : Rat
  scrollY : Rat

/-- Embedding of `rating === ... ? ... : ...`, the border style used at every overlay
styling site: dotted exactly for the unverified state, solid otherwise. -/
def borderStyleFor (rating : Rating) : String :=
  if rating == Rating.unverified then "dotted" else "solid"

/-- Embedding of `hideActiveTooltip`: clear the hide timer and remove the active tooltip
element from the document. -/
def hideActiveTooltip (st : HighlighterState) : HighlighterState :=
  let st1 := { st with tooltipHideTimeout := none }
  match st1.activeTooltip with
  | none => st1
  | some tip =>
    { st1 with
      tooltips := st1.tooltips.erase tip,
      activeTooltip := none,
      activeTooltipClaimId := none }

/-- Embedding of `hideActiveTooltipDelayed`: (re)arm the 300 ms hide timer. -/
def hideActiveTooltipDelayed (st : HighlighterState) : HighlighterState :=
  { st with tooltipHideTimeout := some 300 }

/-- Firing of the armed hide timer. -/
def tooltipHideTimerFire (st : HighlighterState) : HighlighterState :=
  hideActiveTooltip st

/-- Embedding of `cancelTooltipHide`: disarm the hide timer. -/
def cancelTooltipHide (st : HighlighterState) : HighlighterState :=
  { st with tooltipHideTimeout := none }

/-- Embedding of `showTooltipForClaim`: show the tooltip for a claim on hover-enter. The
claim must be tracked and verified; if its tooltip is already showing only
the pending hide is cancelled; otherwise any existing tooltip is removed
first and a fresh element is appended to the document. -/
def showTooltipForClaim (st : HighlighterState) (claimId : String) : HighlighterState :=
  let st := cancelTooltipHide st
  match mapGet st.trackedClaims claimId with
  | none => st
  | some tracked =>
    match tracked.verification with
    | none => st
    | some _ =>
      -- If same tooltip is already showing, just cancel hide
      if st.activeTooltipClaimId == some claimId
          && (match st.activeTooltip with
              | some tip => st.tooltips.contains tip
              | none => Bool.false) then
        st
      else
        -- Remove any existing tooltip, then create the new one
        let st := hideActiveTooltip st
        let tip : Tooltip := { claimId := claimId }
        { st with
          tooltips := st.tooltips ++ [tip],
          activeTooltip := some tip,
          activeTooltipClaimId := some claimId }

/-- Embedding of `createOverlays`: one overlay per sufficiently large client rectangle,
positioned at document coordinates (client position plus scroll), styled by
rating. -/
def createOverlays (env : DocEnv) (claimId : String) (rects : List Rect)
    (rating : Rating) : List Overlay :=
  rects.filterMap fun r =>
    -- Skip tiny rects (likely whitespace)
    if r.width < 5 ∨ r.height < 5 then none
    else some {
      claimId := claimId,
      dataRating := rating,
      top := r.top + env.scrollY,
      left := r.left + env.scrollX,
      width := r.width,
      height := r.height,
      backgroundColor := RATING_COLORS rating ++ "22",
      borderBottom := "2px " ++ borderStyleFor rating ++ " " ++ RATING_COLORS rating }

/-- Embedding of `createOverlaysFromStoredRects`: identical to `createOverlays` except
that the stored positions are already document-relative, so no scroll offset
is added. -/
def createOverlaysFromStoredRects (claimId : String) (rects : List Rect)
    (rating : Rating) : List Overlay :=
  rects.filterMap fun r =>
    -- Skip tiny rects (likely whitespace)
    if r.width < 5 ∨ r.height < 5 then none
    else some {
      claimId := claimId,
      dataRating := rating,
      top := r.top,
      left := r.left,
      width := r.width,
      height := r.height,
      backgroundColor := RATING_COLORS rating ++ "22",
      borderBottom := "2px " ++ borderStyleFor rating ++ " " ++ RATING_COLORS rating }

/-- The in-place overlay restyling performed on verification updates: new
background color, border and `data-rating`. -/
def restyleOverlay (rating : Rating) (o : Overlay) : Overlay :=
  { o with
    backgroundColor := RATING_COLORS rating ++ "22",
    borderBottom := "2px " ++ borderStyleFor rating ++ " " ++ RATING_COLORS rating,
    dataRating := rating }

/-- Conversion of located client rects to the stored document-relative
snapshot: each rect top/left is shifted by the current scroll offset. -/
def toStoredRects (env : DocEnv) (rects : List Rect) : List Rect :=
  rects.map fun r =>
    { r with
      top := r.top + env.scrollY,
      left := r.left + env.scrollX }

/-- Embedding of `updateVerification`. The result pairs the new state with the delay of
the retry the source schedules via `setTimeout(() => updateVerification(id,
v, retryCount + 1), 100 * (retryCount + 1))`, or `none` when no retry is
scheduled. -/
def updateVerification (st : HighlighterState) (claimId : String) (v : Verification)
    (retryCount : Nat) : HighlighterState × Option Nat :=
  match mapGet st.trackedClaims claimId with
  | none =>
    if retryCount < 5 then
      -- Store pending verification and retry after a short delay
      ({ st with pendingVerifications := mapSet st.pendingVerifications claimId v },
        some (100 * (retryCount + 1)))
    else
      -- Keep it in pending in case the claim is registered later
      ({ st with pendingVerifications := mapSet st.pendingVerifications claimId v }, none)
  | some tracked =>
    -- Clear from pending if it was there
    let st := { st with pendingVerifications := mapDelete st.pendingVerifications claimId }
    -- Update the tracked record and restyle its overlays in place
    let newTracked :=
      { tracked with
        verification := some v,
        overlayElements := tracked.overlayElements.map (restyleOverlay v.rating) }
    let st := { st with trackedClaims := mapSet st.trackedClaims claimId newTracked }
    -- Hide tooltip if it is for this claim
    let st := if st.activeTooltipClaimId == some claimId then hideActiveTooltip st else st
    (st, none)

/-- The retry chain of `updateVerification` in a window where no other event
touches the state: run the call at the given retry count, then keep running
the scheduled retries, collecting their delays. -/
def updateVerificationRetries : Nat → HighlighterState → String → Verification → Nat →
    HighlighterState × List Nat
  | 0, st, _, _, _ => (st, [])
  | fuel + 1, st, claimId, v, retryCount =>
    match updateVerification st claimId v retryCount with
    | (st1, none) => (st1, [])
    | (st1, some d) =>
      let r := updateVerificationRetries fuel st1 claimId v (retryCount + 1)
      (r.1, d :: r.2)

/-- A detected claim as consumed by `highlightClaim`: the claim and the
client rectangles of its capture-time range, when such a range is attached
and readable. -/
structure DetectedClaim where
  claim : Claim
  rangeRects : Option (List Rect)
deriving Repr, DecidableEq

/-- The return record of `highlightClaim`. `highlightElement` is the first
overlay; `none` models the fresh placeholder `div` the source substitutes
when the claim owns no overlay. -/
structure HighlightedClaim where
  claimId : String
  highlightElement : Option Overlay
  verification : Option Verification
deriving Repr, DecidableEq

/-- Embedding of `highlightClaim`. Locates the claim (range rects first, then text
re-search), creates overlays and the tracked entry, stores the geometry
snapshot, and applies any pending verification that arrived before
registration. Returns the new state and the `HighlightedClaim` (or `none`
where the source returns `null`). -/
def highlightClaim (env : DocEnv) (st : HighlighterState) (dc : DetectedClaim)
    (verification : Option Verification) : HighlighterState × Option HighlightedClaim :=
  match mapGet st.trackedClaims dc.claim.id with
  | some tracked =>
    -- Already tracked: apply a provided verification and return the entry
    match verification with
    | some v =>
      let st1 := (updateVerification st dc.claim.id v 0).1
      -- the source reads the tracked record it captured above, which
      -- updateVerification mutated in place; re-read it from the new state
      (match mapGet st1.trackedClaims dc.claim.id with
       | some tr => (st1, some { claimId := dc.claim.id,
                                 highlightElement := tr.overlayElements.head?,
                                 verification := tr.verification })
       | none => (st1, none))
    | none =>
      (st, some { claimId := dc.claim.id,
                  highlightElement := tracked.overlayElements.head?,
                  verification := tracked.verification })
  | none =>
    let rating := (verification.map fun v => v.rating).getD Rating.unverified
    -- First try using the provided range (non-degenerate rects only)
    let rangeRects :=
      match dc.rangeRects with
      | some rs => rs.filter fun r => decide (0 < r.width ∧ 0 < r.height)
      | none => []
    -- Fall back to text search if the range did not yield rects
    let rects := if rangeRects.isEmpty then env.findTextRects dc.claim.text else rangeRects
    if rects.isEmpty then (st, none)
    else
      let overlays := createOverlays env dc.claim.id rects rating
      if overlays.isEmpty then (st, none)
      else
        -- Store original rects as document-relative positions for refresh
        let tracked : TrackedClaim :=
          { claimId := dc.claim.id,
            claimText := dc.claim.text,
            verification := verification,
            overlayElements := overlays,
            originalRects := some (toStoredRects env rects) }
        -- Check for a pending verification that arrived before registration
        match mapGet st.pendingVerifications dc.claim.id with
        | some pv =>
          let tracked1 :=
            { tracked with
              verification := some pv,
              overlayElements := overlays.map (restyleOverlay pv.rating) }
          let st1 :=
            { st with
              trackedClaims := mapSet st.trackedClaims dc.claim.id tracked1,
              pendingVerifications := mapDelete st.pendingVerifications dc.claim.id }
          (st1, some { claimId := dc.claim.id,
                       highlightElement := tracked1.overlayElements.head?,
                       verification := some pv })
        | none =>
          let st1 := { st with trackedClaims := mapSet st.trackedClaims dc.claim.id tracked }
          (st1, some { claimId := dc.claim.id,
                       highlightElement := overlays.head?,
                       verification := verification })

/-- Embedding of `registerClaimWithoutHighlight`: track a claim with no visual overlays,
claiming any pending verification that arrived before registration. -/
def registerClaimWithoutHighlight (st : HighlighterState) (id text : String) :
    HighlighterState :=
  if (mapGet st.trackedClaims id).isSome then st
  else
    let tracked : TrackedClaim :=
      { claimId := id,
        claimText := text,
        verification := none,
        overlayElements := [],
        originalRects := none }
    match mapGet st.pendingVerifications id with
    | some pv =>
      { st with
        trackedClaims := mapSet st.trackedClaims id { tracked with verification := some pv },
        pendingVerifications := mapDelete st.pendingVerifications id }
    | none =>
      { st with trackedClaims := mapSet st.trackedClaims id tracked }

/-- The per-claim body of the `refreshOverlayPositions` loop. -/
def refreshClaimEntry (env : DocEnv) (e : String × TrackedClaim) : String × TrackedClaim :=
  let claimId := e.1
  let tracked := e.2
  -- Skip claims with no visual overlays (registered without highlight)
  if tracked.overlayElements.isEmpty && tracked.originalRects == none then e
  else
    -- Old overlays are removed; try to find the text again
    let rects := env.findTextRects tracked.claimText
    let rating := (tracked.verification.map fun v => v.rating).getD Rating.unverified
    if !rects.isEmpty then
      -- Text found: new overlays, updated stored positions
      (claimId, { tracked with
        overlayElements := createOverlays env claimId rects rating,
        originalRects := some (toStoredRects env rects) })
    else
      match tracked.originalRects with
      | some stored =>
        if !stored.isEmpty then
          -- Text not found but stored positions exist: use them
          (claimId, { tracked with
            overlayElements := createOverlaysFromStoredRects claimId stored rating })
        else
          (claimId, { tracked with overlayElements := [] })
      | none =>
        (claimId, { tracked with overlayElements := [] })

/-- Embedding of `refreshOverlayPositions`: hide any active tooltip, then recompute every
tracked claim geometry. -/
def refreshOverlayPositions (env : DocEnv) (st : HighlighterState) : HighlighterState :=
  let st := hideActiveTooltip st
  { st with trackedClaims := st.trackedClaims.map (refreshClaimEntry env) }

/-- Embedding of `removeHighlight`: drop a tracked claim, removing its overlays and its
tooltip if showing. -/
def removeHighlight (st : HighlighterState) (claimId : String) : HighlighterState :=
  match mapGet st.trackedClaims claimId with
  | none => st
  | some _ =>
    let st := if st.activeTooltipClaimId == some claimId then hideActiveTooltip st else st
    { st with trackedClaims := mapDelete st.trackedClaims claimId }

/-- Embedding of `removeAllHighlights`. -/
def removeAllHighlights (st : HighlighterState) : HighlighterState :=
  let st := hideActiveTooltip st
  { st with trackedClaims := [] }

/-- Modelled from the spec: `isTooltipActive` is imported by the content
entry point from the highlighter module, but the highlighter revision
defining it is not among the sources; per the Tooltip Singleton state
machine and the Mutation Reconciler contract it reports whether the
singleton is in the `showing` state. -/
def isTooltipActive (st : HighlighterState) : Bool :=
  st.activeTooltip.isSome

/-- The mutation-observer callback of the content entry point: mutations
entirely inside the overlay container are ignored, and nothing is scheduled
while the tooltip is showing. Returns whether the 500 ms refresh timeout is
armed. -/
def mutationObserverSchedules (st : HighlighterState) (hasRelevantMutation : Bool) : Bool :=
  if !hasRelevantMutation then Bool.false
  else if isTooltipActive st then Bool.false
  else Bool.true

/-- Firing of the mutation refresh timeout, which double-checks the tooltip
before refreshing. -/
def mutationTimeoutFire (env : DocEnv) (st : HighlighterState) : HighlighterState :=
  if isTooltipActive st then st else refreshOverlayPositions env st

/-- Firing of the 100 ms scroll refresh timeout. -/
def scrollTimeoutFire (env : DocEnv) (st : HighlighterState) : HighlighterState :=
  if isTooltipActive st then st else refreshOverlayPositions env st

/-- The throttled resize handler. -/
def resizeThrottleFire (env : DocEnv) (st : HighlighterState) : HighlighterState :=
  if isTooltipActive st then st else refreshOverlayPositions env st

section MapLemmas

variable {α : Type}

/-- Replacing all entries keyed `k` rewrites exactly the entry `find?`
would return. -/
theorem find?_replaceKey (m : List (String × α)) (k : String) (v : α) :
    ((m.map fun e => if e.1 == k then (k, v) else e).find? fun e => e.1 == k)
      = ((m.find? fun e => e.1 == k).map fun _ => (k, v)) := by
  induction m with
  | nil => rfl
  | cons e rest ih =>
    rw [List.map_cons]
    by_cases h : (e.1 == k) = true
    · rw [if_pos h,
        List.find?_cons_of_pos (p := fun e => e.1 == k) (a := (k, v)) _ (by simp),
        List.find?_cons_of_pos (p := fun e => e.1 == k) (a := e) _ h]
      rfl
    · rw [if_neg h,
        List.find?_cons_of_neg (p := fun e => e.1 == k) (a := e) _ h,
        List.find?_cons_of_neg (p := fun e => e.1 == k) (a := e) _ h, ih]

/-- Replacing entries keyed `q` does not disturb a `find?` at `k ≠ q`. -/
theorem find?_replaceKey_ne (m : List (String × α)) (k q : String) (v : α) (h : q ≠ k) :
    ((m.map fun e => if e.1 == q then (q, v) else e).find? fun e => e.1 == k)
      = m.find? fun e => e.1 == k := by
  induction m with
  | nil => rfl
  | cons e rest ih =>
    rw [List.map_cons]
    by_cases he : (e.1 == q) = true
    · have hek : ¬ ((e.1 == k) = true) := by
        simp only [beq_iff_eq] at he ⊢
        rw [he]; exact h
      rw [if_pos he,
        List.find?_cons_of_neg (p := fun e => e.1 == k) (a := (q, v)) _ (by simp [h]),
        List.find?_cons_of_neg (p := fun e => e.1 == k) (a := e) _ hek, ih]
    · rw [if_neg he]
      by_cases hek : (e.1 == k) = true
      · rw [List.find?_cons_of_pos (p := fun e => e.1 == k) (a := e) _ hek,
          List.find?_cons_of_pos (p := fun e => e.1 == k) (a := e) _ hek]
      · rw [List.find?_cons_of_neg (p := fun e => e.1 == k) (a := e) _ hek,
          List.find?_cons_of_neg (p := fun e => e.1 == k) (a := e) _ hek, ih]

/-- Lemma: `mapGet` after `mapSet` at the same key. -/
theorem mapGet_mapSet_self (m : List (String × α)) (k : String) (v : α) :
    mapGet (mapSet m k v) k = some v := by
  unfold mapGet mapSet
  by_cases h : ((m.find? fun e => e.1 == k).isSome : Prop)
  · rw [if_pos h, find?_replaceKey]
    obtain ⟨e, he⟩ := Option.isSome_iff_exists.mp h
    simp [he]
  · rw [if_neg h, List.find?_append]
    rw [Option.not_isSome_iff_eq_none] at h
    simp [h]

/-- Lemma: `mapGet` after `mapSet` at a different key. -/
theorem mapGet_mapSet_ne (m : List (String × α)) (k q : String) (v : α)
    (h : q ≠ k) : mapGet (mapSet m q v) k = mapGet m k := by
  unfold mapGet mapSet
  by_cases hq : ((m.find? fun e => e.1 == q).isSome : Prop)
  · rw [if_pos hq, find?_replaceKey_ne m k q v h]
  · rw [if_neg hq, List.find?_append]
    have h1 : (([(q, v)]).find? fun e => e.1 == k) = none := by simp [h]
    rw [h1]
    cases m.find? fun e => e.1 == k <;> rfl

/-- Lemma: `mapGet` after `mapDelete` at the deleted key. -/
theorem mapGet_mapDelete_self (m : List (String × α)) (k : String) :
    mapGet (mapDelete m k) k = none := by
  unfold mapGet mapDelete
  rw [List.find?_eq_none.mpr]
  · rfl
  · intro e he
    have hf := List.of_mem_filter he
    simp only [Bool.not_eq_true'] at hf
    simp [hf]

/-- Lemma: `mapGet` after `mapDelete` at a different key. -/
theorem mapGet_mapDelete_ne (m : List (String × α)) (k q : String) (h : q ≠ k) :
    mapGet (mapDelete m q) k = mapGet m k := by
  unfold mapGet mapDelete
  congr 1
  induction m with
  | nil => rfl
  | cons e rest ih =>
    by_cases he : (e.1 == q) = true
    · have hek : ¬ ((e.1 == k) = true) := by
        simp only [beq_iff_eq] at he ⊢
        rw [he]; exact h
      rw [List.filter_cons_of_neg (by simp [he]), ih,
        List.find?_cons_of_neg (p := fun e => e.1 == k) (a := e) _ hek]
    · rw [List.filter_cons_of_pos (by simp [he])]
      by_cases hek : (e.1 == k) = true
      · rw [List.find?_cons_of_pos (p := fun e => e.1 == k) (a := e) _ hek,
          List.find?_cons_of_pos (p := fun e => e.1 == k) (a := e) _ hek]
      · rw [List.find?_cons_of_neg (p := fun e => e.1 == k) (a := e) _ hek,
          List.find?_cons_of_neg (p := fun e => e.1 == k) (a := e) _ hek, ih]

end MapLemmas

/-- Sample verification used by concrete witnesses (Scenario D claim id and
rating). -/
def vSample : Verification :=
  { claimId := "c9",
    rating := Rating.false,
    confidence := (9 : Rat) / 10,
    summary := "s",
    evidence := [],
    lastUpdated := DateV.now 0,
    humanReviewed := Bool.false,
    reasoning := none,
    caveats := none }

/-- Sample claims used by concrete witnesses. -/
def cSample (i : Nat) : Claim :=
  { id := "c" ++ toString i,
    text := "t" ++ toString i,
    normalizedText := "t" ++ toString i,
    claimType := ClaimType.statistic }

/-- The Scenario E batch of 3 claims. -/
def claimsSampleE : List Claim := [cSample 1, cSample 2, cSample 3]

/-- A document environment returning one 10×10 rect for every text. -/
def envSample : DocEnv :=
  { findTextRects := fun _ => [{ top := 0, left := 0, width := 10, height := 10 }],
    scrollX := 0,
    scrollY := 0 }

/-- A detected claim (id "c9") with no capture-time range, for witnesses. -/
def dcSample : DetectedClaim :=
  { claim := { id := "c9", text := "t9", normalizedText := "t9",
               claimType := ClaimType.statistic },
    rangeRects := none }

/-- C9: every input text that matches any junk pattern is rejected
immediately by the worthiness scorer with score exactly 0 (hence no accepted
claim text matches a junk pattern); the witness instantiates this at the
Scenario B input "Subscribe to our newsletter for more!". -/
theorem junkMatch_rejected_scoreZero (text : String)
    (h : testAnyJunkPattern text = true) :
    (assessClaimWorthiness text).isWorthy = Bool.false ∧
      (assessClaimWorthiness text).score = 0 := by
  unfold assessClaimWorthiness
  rw [if_pos h]
  exact ⟨rfl, rfl⟩

/-- Witness for C9 at the Scenario B input. -/
theorem junkMatch_rejected_scoreZero_witness :
    testAnyJunkPattern "Subscribe to our newsletter for more!" = true ∧
      ((assessClaimWorthiness "Subscribe to our newsletter for more!").isWorthy = Bool.false ∧
        (assessClaimWorthiness "Subscribe to our newsletter for more!").score = 0) :=
  ⟨by decide, junkMatch_rejected_scoreZero _ (by decide)⟩

/-- Lemma: `updateVerification` on an untracked claim id: the verification goes to
the pending set, nothing else changes, and a retry is scheduled with delay
`100 * (retryCount + 1)` exactly while `retryCount < 5`. -/
theorem updateVerification_untracked (st : HighlighterState) (claimId : String)
    (v : Verification) (rc : Nat) (h : mapGet st.trackedClaims claimId = none) :
    updateVerification st claimId v rc =
      ({ st with pendingVerifications := mapSet st.pendingVerifications claimId v },
        if rc < 5 then some (100 * (rc + 1)) else none) := by
  unfold updateVerification
  rw [h]
  by_cases h5 : rc < 5
  · rw [if_pos h5, if_pos h5]
  · rw [if_neg h5, if_neg h5]

/-- C3: calling `updateVerification` for a claim with no TrackedClaim stores
the Verification in the pending set and retries on a bounded backoff: the
first call schedules a retry after 100 ms, the chain performs exactly 5
retries with delays 100, 200, 300, 400, 500 ms, and after the 5th failed
attempt the Verification is still in the pending set (and no TrackedClaim
was created), so a late registration can still claim it. -/
theorem updateVerification_retry_backoff (st : HighlighterState) (claimId : String)
    (v : Verification) (h : mapGet st.trackedClaims claimId = none) :
    (updateVerification st claimId v 0).2 = some 100 ∧
      mapGet (updateVerification st claimId v 0).1.pendingVerifications claimId = some v ∧
      (updateVerificationRetries 6 st claimId v 0).2 = [100, 200, 300, 400, 500] ∧
      mapGet (updateVerificationRetries 6 st claimId v 0).1.pendingVerifications claimId
        = some v ∧
      (updateVerificationRetries 6 st claimId v 0).1.trackedClaims = st.trackedClaims := by
  refine ⟨?_, ?_, ?_, ?_, ?_⟩ <;>
    simp [updateVerificationRetries, updateVerification_untracked, h, mapGet_mapSet_self]

/-- Witness for C3 from the empty initial state. -/
theorem updateVerification_retry_backoff_witness :
    mapGet initialHighlighterState.trackedClaims "c9" = none ∧
      ((updateVerification initialHighlighterState "c9" vSample 0).2 = some 100 ∧
        mapGet (updateVerification initialHighlighterState "c9" vSample 0).1.pendingVerifications
          "c9" = some vSample ∧
        (updateVerificationRetries 6 initialHighlighterState "c9" vSample 0).2
          = [100, 200, 300, 400, 500] ∧
        mapGet (updateVerificationRetries 6 initialHighlighterState "c9" vSample
          0).1.pendingVerifications "c9" = some vSample ∧
        (updateVerificationRetries 6 initialHighlighterState "c9" vSample 0).1.trackedClaims
          = initialHighlighterState.trackedClaims) :=
  ⟨rfl, updateVerification_retry_backoff initialHighlighterState "c9" vSample rfl⟩

/-- In the transport-failure loop, a fallback entry already present for key
`k` survives all remaining iterations. -/
theorem fallbackFold_preserves (now : Nat) (k : String) (claims : List Claim)
    (m : List (String × Verification))
    (hm : mapGet m k = some (fallbackVerification now k)) :
    mapGet (claims.foldl (fun m c => mapSet m c.id (fallbackVerification now c.id)) m) k
      = some (fallbackVerification now k) := by
  induction claims generalizing m with
  | nil => exact hm
  | cons c rest ih =>
    rw [List.foldl_cons]
    apply ih
    by_cases hc : c.id = k
    · rw [hc, mapGet_mapSet_self]
    · rw [mapGet_mapSet_ne _ _ _ _ hc]
      exact hm

/-- Every claim of the batch receives its fallback entry in the
transport-failure loop. -/
theorem fallbackFold_mem (now : Nat) (c : Claim) (claims : List Claim)
    (m : List (String × Verification)) (hc : c ∈ claims) :
    mapGet (claims.foldl (fun m c => mapSet m c.id (fallbackVerification now c.id)) m) c.id
      = some (fallbackVerification now c.id) := by
  induction claims generalizing m with
  | nil => cases hc
  | cons d rest ih =>
    rw [List.foldl_cons]
    rcases List.mem_cons.mp hc with hcd | hmem
    · rw [hcd]
      exact fallbackFold_preserves now d.id rest _ (mapGet_mapSet_self _ _ _)
    · exact ih _ hmem

/-- C4: on transport failure of a verification request, `verifyClaimsApi`
returns, for every claim of the failed batch, a synthesized result with
rating unverified, confidence 0, empty evidence and a caveat noting the
service was unavailable — no claim is left unresolved. -/
theorem verifyClaimsApi_transportFailure (claims : List Claim) (now : Nat)
    (genSourceId : Nat → String) (c : Claim) (hc : c ∈ claims) :
    mapGet (verifyClaimsApi claims FetchOutcome.failure now genSourceId) c.id
        = some (fallbackVerification now c.id) ∧
      (fallbackVerification now c.id).rating = Rating.unverified ∧
      (fallbackVerification now c.id).confidence = 0 ∧
      (fallbackVerification now c.id).evidence = [] ∧
      (fallbackVerification now c.id).caveats = some ["Backend service unavailable"] := by
  refine ⟨?_, rfl, rfl, rfl, rfl⟩
  have hne : ¬ (claims.length = 0) := by
    intro h0
    rw [List.length_eq_zero] at h0
    rw [h0] at hc
    cases hc
  unfold verifyClaimsApi
  rw [if_neg hne]
  exact fallbackFold_mem now c claims [] hc

/-- Witness for C4 at the Scenario E batch of 3 claims. -/
theorem verifyClaimsApi_transportFailure_witness :
    cSample 2 ∈ claimsSampleE ∧
      (mapGet (verifyClaimsApi claimsSampleE FetchOutcome.failure 0 (fun _ => "src"))
          (cSample 2).id = some (fallbackVerification 0 (cSample 2).id) ∧
        (fallbackVerification 0 (cSample 2).id).rating = Rating.unverified ∧
        (fallbackVerification 0 (cSample 2).id).confidence = 0 ∧
        (fallbackVerification 0 (cSample 2).id).evidence = [] ∧
        (fallbackVerification 0 (cSample 2).id).caveats
          = some ["Backend service unavailable"]) :=
  ⟨by decide, verifyClaimsApi_transportFailure claimsSampleE 0 (fun _ => "src")
    (cSample 2) (by decide)⟩

/-- The `positiveSignals` counter is zero exactly when none of the four
signal tests (verb structure, meaningful statistic, authoritative entity,
claim trigger) fired. -/
theorem scoreAccumulate_positiveSignals_eq_zero (text : String) :
    ((scoreAccumulate text).positiveSignals = 0) ↔
      (reTest verbPatterns text || reTest meaningfulStats text ||
       reTest entityPatterns text || reTest claimTriggers text) = Bool.false := by
  unfold scoreAccumulate
  by_cases hv : reTest verbPatterns text <;>
  by_cases hms : reTest meaningfulStats text <;>
  by_cases hen : reTest entityPatterns text <;>
  by_cases hct : reTest claimTriggers text <;>
    simp [hv, hms, hen, hct, apply_ite ScoreAcc.positiveSignals]

/-- C1: the worthiness scorer accepts iff no immediate rejection fires (junk
pattern, length under 40 or over 400, digit ratio over 0.3), at least one
positive signal category fired (verb structure, meaningful statistic,
authoritative entity, or claim trigger), and the signed score is at least
40; in particular a text with no positive signal category is rejected
regardless of its score. -/
theorem assessClaimWorthiness_accept_iff (text : String) :
    (assessClaimWorthiness text).isWorthy = true ↔
      (testAnyJunkPattern text = Bool.false ∧ 40 ≤ text.length ∧ text.length ≤ 400 ∧
        10 * digitCount text ≤ 3 * text.length ∧
        (reTest verbPatterns text || reTest meaningfulStats text ||
         reTest entityPatterns text || reTest claimTriggers text) = true ∧
        40 ≤ (assessClaimWorthiness text).score) := by
  unfold assessClaimWorthiness
  by_cases hj : testAnyJunkPattern text = true
  · rw [if_pos hj]
    simp [hj]
  · have hj2 : testAnyJunkPattern text = Bool.false := by simpa using hj
    rw [if_neg hj]
    by_cases h40 : text.length < 40
    · rw [if_pos h40]
      refine iff_of_false (by simp) ?_
      rintro ⟨-, h, -⟩
      omega
    · rw [if_neg h40]
      by_cases h400 : 400 < text.length
      · rw [if_pos h400]
        refine iff_of_false (by simp) ?_
        rintro ⟨-, -, h, -⟩
        omega
      · rw [if_neg h400]
        by_cases hnum : 3 * text.length < 10 * digitCount text
        · rw [if_pos hnum]
          refine iff_of_false (by simp) ?_
          rintro ⟨-, -, -, h, -⟩
          omega
        · rw [if_neg hnum]
          by_cases hp : (scoreAccumulate text).positiveSignals = 0
          · rw [if_pos hp]
            have hsig := (scoreAccumulate_positiveSignals_eq_zero text).mp hp
            simp [hsig]
          · rw [if_neg hp]
            have hsig : (reTest verbPatterns text || reTest meaningfulStats text ||
                reTest entityPatterns text || reTest claimTriggers text) = true := by
              rcases Bool.eq_false_or_eq_true (reTest verbPatterns text ||
                  reTest meaningfulStats text || reTest entityPatterns text ||
                  reTest claimTriggers text) with hb | hb
              · exact hb
              · exact absurd ((scoreAccumulate_positiveSignals_eq_zero text).mpr hb) hp
            simp only [hj2, hsig, decide_eq_true_eq, true_and]
            constructor
            · intro h
              refine ⟨by omega, by omega, by omega, h⟩
            · rintro ⟨-, -, -, h⟩
              exact h

/-- Hiding the tooltip never touches the tracked-claims map. -/
theorem hideActiveTooltip_trackedClaims (st : HighlighterState) :
    (hideActiveTooltip st).trackedClaims = st.trackedClaims := by
  unfold hideActiveTooltip
  cases st.activeTooltip <;> rfl

/-- Hiding the tooltip never touches the pending-verifications map. -/
theorem hideActiveTooltip_pendingVerifications (st : HighlighterState) :
    (hideActiveTooltip st).pendingVerifications = st.pendingVerifications := by
  unfold hideActiveTooltip
  cases st.activeTooltip <;> rfl

/-- C5: once a Verification with rating R is applied to a tracked claim by
`updateVerification`, every overlay owned by that claim carries data-rating
R, background color `RATING_COLORS R` (with the fixed alpha suffix) and a
border in `RATING_COLORS R` whose style is dotted exactly when R is
unverified, solid otherwise. -/
theorem updateVerification_overlay_styles (st : HighlighterState) (claimId : String)
    (v : Verification) (rc : Nat) (t : TrackedClaim)
    (h : mapGet st.trackedClaims claimId = some t) :
    ∃ t2, mapGet (updateVerification st claimId v rc).1.trackedClaims claimId = some t2 ∧
      t2.verification = some v ∧
      ∀ o ∈ t2.overlayElements,
        o.dataRating = v.rating ∧
        o.backgroundColor = RATING_COLORS v.rating ++ "22" ∧
        o.borderBottom = "2px " ++ (if v.rating = Rating.unverified then "dotted" else "solid")
          ++ " " ++ RATING_COLORS v.rating := by
  refine ⟨{ t with
      verification := some v,
      overlayElements := t.overlayElements.map (restyleOverlay v.rating) }, ?_, rfl, ?_⟩
  · simp only [updateVerification, h]
    rw [apply_ite HighlighterState.trackedClaims, hideActiveTooltip_trackedClaims, ite_self]
    exact mapGet_mapSet_self _ _ _
  · intro o ho
    rcases List.mem_map.mp ho with ⟨o1, -, rfl⟩
    refine ⟨rfl, rfl, ?_⟩
    by_cases hr : v.rating = Rating.unverified <;>
      simp [restyleOverlay, borderStyleFor, hr]

/-- Witness for C5: a state tracking one claim with one overlay. -/
def trackedSample : TrackedClaim :=
  { claimId := "c1",
    claimText := "t1",
    verification := none,
    overlayElements := [{
      claimId := "c1",
      dataRating := Rating.unverified,
      top := 0, left := 0, width := 10, height := 10,
      backgroundColor := RATING_COLORS Rating.unverified ++ "22",
      borderBottom := "2px dotted " ++ RATING_COLORS Rating.unverified }],
    originalRects := some [{ top := 0, left := 0, width := 10, height := 10 }] }

/-- A highlighter state tracking `trackedSample`. -/
def stTracked : HighlighterState :=
  { initialHighlighterState with trackedClaims := [("c1", trackedSample)] }

/-- Witness for C5 at a concrete tracked claim and verification. -/
theorem updateVerification_overlay_styles_witness :
    mapGet stTracked.trackedClaims "c1" = some trackedSample ∧
      (∃ t2, mapGet (updateVerification stTracked "c1" vSample 0).1.trackedClaims "c1"
          = some t2 ∧
        t2.verification = some vSample ∧
        ∀ o ∈ t2.overlayElements,
          o.dataRating = vSample.rating ∧
          o.backgroundColor = RATING_COLORS vSample.rating ++ "22" ∧
          o.borderBottom = "2px " ++
            (if vSample.rating = Rating.unverified then "dotted" else "solid")
            ++ " " ++ RATING_COLORS vSample.rating) :=
  ⟨rfl, updateVerification_overlay_styles stTracked "c1" vSample 0 trackedSample rfl⟩

/-- An untracked claim with a pending verification: whenever
`highlightClaim` succeeds, the created TrackedClaim carries the pending
verification and the pending entry is removed. -/
theorem highlightClaim_untracked_pending (env : DocEnv) (st : HighlighterState)
    (dc : DetectedClaim) (v : Verification)
    (h : mapGet st.trackedClaims dc.claim.id = none)
    (hp : mapGet st.pendingVerifications dc.claim.id = some v) :
    ∀ st2 hc, highlightClaim env st dc none = (st2, some hc) →
      (mapGet st2.trackedClaims dc.claim.id).map TrackedClaim.verification = some (some v) ∧
        mapGet st2.pendingVerifications dc.claim.id = none := by
  intro st2 hc heq
  rw [highlightClaim.eq_def] at heq
  simp only [h, hp] at heq
  split at heq <;> try split at heq <;> try split at heq <;> try split at heq
  all_goals try exact Option.noConfusion (congrArg Prod.snd heq)
  all_goals
    injection heq with h1 h2
    subst h1
    refine ⟨?_, ?_⟩
    · simp only [mapGet_mapSet_self]
      rfl
    · simp only [mapGet_mapDelete_self]

/-- C2: a Verification delivered before its claim is tracked is held in the
pending-by-id set and is not applied to (or creates) any TrackedClaim; if
the claim is subsequently registered — by `registerClaimWithoutHighlight` or
by a successful `highlightClaim` — the final TrackedClaim carries that
Verification and the id is removed from the pending set, so the Verification
is never silently dropped and never durably applied to a TrackedClaim that
does not exist. -/
theorem pendingVerification_never_lost (st : HighlighterState) (claimId : String)
    (v : Verification) (rc : Nat) (text : String) (env : DocEnv) (dc : DetectedClaim)
    (hid : dc.claim.id = claimId)
    (h : mapGet st.trackedClaims claimId = none) :
    (mapGet (updateVerification st claimId v rc).1.pendingVerifications claimId = some v ∧
      (updateVerification st claimId v rc).1.trackedClaims = st.trackedClaims) ∧
    ((mapGet (registerClaimWithoutHighlight (updateVerification st claimId v rc).1 claimId
          text).trackedClaims claimId).map TrackedClaim.verification = some (some v) ∧
      mapGet (registerClaimWithoutHighlight (updateVerification st claimId v rc).1 claimId
          text).pendingVerifications claimId = none) ∧
    (∀ st2 hc, highlightClaim env (updateVerification st claimId v rc).1 dc none
        = (st2, some hc) →
      (mapGet st2.trackedClaims claimId).map TrackedClaim.verification = some (some v) ∧
        mapGet st2.pendingVerifications claimId = none) := by
  simp only [updateVerification_untracked st claimId v rc h]
  refine ⟨⟨mapGet_mapSet_self _ _ _, trivial⟩, ?_, ?_⟩
  · simp only [registerClaimWithoutHighlight, h, Option.isSome_none, Bool.false_eq_true,
      if_false, mapGet_mapSet_self, mapGet_mapDelete_self]
    exact ⟨rfl, trivial⟩
  · intro st2 hc heq
    have h3 := highlightClaim_untracked_pending env
      { st with pendingVerifications := mapSet st.pendingVerifications claimId v } dc v
      (by rw [hid]; exact h) (by rw [hid]; exact mapGet_mapSet_self _ _ _) st2 hc heq
    rw [hid] at h3
    exact h3

/-- Witness for C2 from the empty initial state at a concrete claim,
verification and document environment. -/
theorem pendingVerification_never_lost_witness :
    dcSample.claim.id = "c9" ∧ mapGet initialHighlighterState.trackedClaims "c9" = none ∧
      ((mapGet (updateVerification initialHighlighterState "c9" vSample
            0).1.pendingVerifications "c9" = some vSample ∧
        (updateVerification initialHighlighterState "c9" vSample 0).1.trackedClaims
          = initialHighlighterState.trackedClaims) ∧
      ((mapGet (registerClaimWithoutHighlight (updateVerification initialHighlighterState
            "c9" vSample 0).1 "c9" "t9").trackedClaims "c9").map TrackedClaim.verification
          = some (some vSample) ∧
        mapGet (registerClaimWithoutHighlight (updateVerification initialHighlighterState
            "c9" vSample 0).1 "c9" "t9").pendingVerifications "c9" = none) ∧
      (∀ st2 hc, highlightClaim envSample (updateVerification initialHighlighterState
            "c9" vSample 0).1 dcSample none = (st2, some hc) →
        (mapGet st2.trackedClaims "c9").map TrackedClaim.verification
            = some (some vSample) ∧
          mapGet st2.pendingVerifications "c9" = none)) :=
  ⟨rfl, rfl, pendingVerification_never_lost initialHighlighterState "c9" vSample 0 "t9"
    envSample dcSample rfl rfl⟩

/-- The tooltip-singleton invariant: the tooltip elements present in the
document are exactly (the singleton of) the active-tooltip reference. -/
def tooltipInv (st : HighlighterState) : Prop :=
  st.tooltips = st.activeTooltip.toList

/-- After `hideActiveTooltip` the active reference is cleared. -/
theorem hideActiveTooltip_activeTooltip (st : HighlighterState) :
    (hideActiveTooltip st).activeTooltip = none := by
  unfold hideActiveTooltip
  cases st.activeTooltip <;> rfl

/-- Lemma: `hideActiveTooltip` preserves the singleton invariant (and empties the
document of tooltips). -/
theorem tooltipInv_hideActiveTooltip (st : HighlighterState) (h : tooltipInv st) :
    tooltipInv (hideActiveTooltip st) := by
  unfold tooltipInv hideActiveTooltip at *
  cases hA : st.activeTooltip with
  | none =>
    rw [hA] at h
    simpa [hA] using h
  | some tip =>
    rw [hA] at h
    simp [hA, h]

/-- The document holds no tooltip after `hideActiveTooltip`. -/
theorem hideActiveTooltip_tooltips (st : HighlighterState) (h : tooltipInv st) :
    (hideActiveTooltip st).tooltips = [] := by
  have h2 := tooltipInv_hideActiveTooltip st h
  unfold tooltipInv at h2
  rw [h2, hideActiveTooltip_activeTooltip]
  rfl

/-- Lemma: `showTooltipForClaim` preserves the singleton invariant: a new tooltip
element is appended only after the previous one is removed. -/
theorem tooltipInv_showTooltipForClaim (st : HighlighterState) (claimId : String)
    (h : tooltipInv st) : tooltipInv (showTooltipForClaim st claimId) := by
  unfold showTooltipForClaim cancelTooltipHide
  dsimp only
  cases hm : mapGet st.trackedClaims claimId with
  | none => exact h
  | some tracked =>
    dsimp only
    cases hv : tracked.verification with
    | none => exact h
    | some v =>
      dsimp only
      split
      · exact h
      · unfold tooltipInv
        dsimp only
        rw [hideActiveTooltip_tooltips { st with tooltipHideTimeout := none } h]
        rfl

/-- Lemma: `updateVerification` preserves the singleton invariant. -/
theorem tooltipInv_updateVerification (st : HighlighterState) (claimId : String)
    (v : Verification) (rc : Nat) (h : tooltipInv st) :
    tooltipInv (updateVerification st claimId v rc).1 := by
  unfold updateVerification
  cases hm : mapGet st.trackedClaims claimId with
  | none => by_cases h5 : rc < 5 <;> simp [h5] <;> exact h
  | some tracked =>
    simp only []
    by_cases hb : (st.activeTooltipClaimId == some claimId) = true
    · rw [if_pos hb]
      exact tooltipInv_hideActiveTooltip _ h
    · rw [if_neg hb]
      exact h

/-- Lemma: `refreshOverlayPositions` preserves the singleton invariant. -/
theorem tooltipInv_refreshOverlayPositions (env : DocEnv) (st : HighlighterState)
    (h : tooltipInv st) : tooltipInv (refreshOverlayPositions env st) := by
  unfold refreshOverlayPositions
  exact tooltipInv_hideActiveTooltip _ h

/-- Lemma: `highlightClaim` preserves the singleton invariant. -/
theorem tooltipInv_highlightClaim (env : DocEnv) (st : HighlighterState)
    (dc : DetectedClaim) (vo : Option Verification) (h : tooltipInv st) :
    tooltipInv (highlightClaim env st dc vo).1 := by
  rw [highlightClaim.eq_def]
  cases hm : mapGet st.trackedClaims dc.claim.id with
  | some tracked =>
    cases vo with
    | some v =>
      simp only []
      cases hm2 : mapGet (updateVerification st dc.claim.id v 0).1.trackedClaims dc.claim.id
        <;> exact tooltipInv_updateVerification st dc.claim.id v 0 h
    | none => exact h
  | none =>
    dsimp only
    repeat' split
    all_goals exact h

/-- Lemma: `registerClaimWithoutHighlight` preserves the singleton invariant. -/
theorem tooltipInv_registerClaimWithoutHighlight (st : HighlighterState)
    (id text : String) (h : tooltipInv st) :
    tooltipInv (registerClaimWithoutHighlight st id text) := by
  unfold registerClaimWithoutHighlight
  split
  · exact h
  · split <;> exact h

/-- Lemma: `removeHighlight` preserves the singleton invariant. -/
theorem tooltipInv_removeHighlight (st : HighlighterState) (claimId : String)
    (h : tooltipInv st) : tooltipInv (removeHighlight st claimId) := by
  unfold removeHighlight
  cases hm : mapGet st.trackedClaims claimId with
  | none => exact h
  | some tracked =>
    simp only []
    by_cases hb : (st.activeTooltipClaimId == some claimId) = true
    · rw [if_pos hb]
      exact tooltipInv_hideActiveTooltip _ h
    · rw [if_neg hb]
      exact h

/-- Lemma: `removeAllHighlights` preserves the singleton invariant. -/
theorem tooltipInv_removeAllHighlights (st : HighlighterState) (h : tooltipInv st) :
    tooltipInv (removeAllHighlights st) := by
  unfold removeAllHighlights
  exact tooltipInv_hideActiveTooltip _ h

/-- C8: at any instant at most one tooltip element exists — every tooltip
subsystem operation (showing a tooltip, switching claims, applying a
verification update, refreshing overlay positions, registering or
highlighting a claim, removing one or all highlights, and the hide timer
itself) preserves the invariant that the document tooltip elements are
exactly the active-tooltip reference, and the document never holds more than
one tooltip element. -/
theorem tooltip_singleton (st : HighlighterState) (env : DocEnv) (claimId id2 : String)
    (v : Verification) (rc : Nat) (dc : DetectedClaim) (vo : Option Verification)
    (text : String) (h : tooltipInv st) :
    tooltipInv (showTooltipForClaim st claimId) ∧
      tooltipInv (hideActiveTooltip st) ∧
      tooltipInv (hideActiveTooltipDelayed st) ∧
      tooltipInv (tooltipHideTimerFire st) ∧
      tooltipInv (updateVerification st id2 v rc).1 ∧
      tooltipInv (refreshOverlayPositions env st) ∧
      tooltipInv (highlightClaim env st dc vo).1 ∧
      tooltipInv (registerClaimWithoutHighlight st id2 text) ∧
      tooltipInv (removeHighlight st id2) ∧
      tooltipInv (removeAllHighlights st) ∧
      (showTooltipForClaim st claimId).tooltips.length ≤ 1 := by
  refine ⟨tooltipInv_showTooltipForClaim st claimId h,
    tooltipInv_hideActiveTooltip st h, h, tooltipInv_hideActiveTooltip st h,
    tooltipInv_updateVerification st id2 v rc h,
    tooltipInv_refreshOverlayPositions env st h,
    tooltipInv_highlightClaim env st dc vo h,
    tooltipInv_registerClaimWithoutHighlight st id2 text h,
    tooltipInv_removeHighlight st id2 h,
    tooltipInv_removeAllHighlights st h, ?_⟩
  have h2 := tooltipInv_showTooltipForClaim st claimId h
  unfold tooltipInv at h2
  rw [h2]
  cases (showTooltipForClaim st claimId).activeTooltip <;> simp

/-- Witness for C8 at a concrete state that is showing a tooltip. -/
def stShowing : HighlighterState :=
  { trackedClaims := [("c1", { trackedSample with verification := some vSample })],
    pendingVerifications := [],
    tooltips := [{ claimId := "c1" }],
    activeTooltip := some { claimId := "c1" },
    activeTooltipClaimId := some "c1",
    tooltipHideTimeout := none }

/-- Witness for C8: the invariant holds at `stShowing` and is preserved by
each operation there. -/
theorem tooltip_singleton_witness :
    tooltipInv stShowing ∧
      (tooltipInv (showTooltipForClaim stShowing "c1") ∧
        tooltipInv (hideActiveTooltip stShowing) ∧
        tooltipInv (hideActiveTooltipDelayed stShowing) ∧
        tooltipInv (tooltipHideTimerFire stShowing) ∧
        tooltipInv (updateVerification stShowing "c1" vSample 0).1 ∧
        tooltipInv (refreshOverlayPositions envSample stShowing) ∧
        tooltipInv (highlightClaim envSample stShowing dcSample vSample).1 ∧
        tooltipInv (registerClaimWithoutHighlight stShowing "c2" "t2") ∧
        tooltipInv (removeHighlight stShowing "c1") ∧
        tooltipInv (removeAllHighlights stShowing) ∧
        (showTooltipForClaim stShowing "c1").tooltips.length ≤ 1) :=
  ⟨rfl, tooltip_singleton stShowing envSample "c1" "c1" vSample 0 dcSample vSample "t2" rfl⟩

/-- C6: while the Tooltip Singleton is showing, no mutation/scroll/resize
reconciliation pass runs: the mutation observer schedules nothing, and each
refresh trigger (mutation timeout, scroll timeout, throttled resize) leaves
the state untouched — geometry is not recomputed and no overlay is
replaced. -/
theorem reconciliation_suppressed_while_showing (env : DocEnv) (st : HighlighterState)
    (b : Bool) (h : isTooltipActive st = true) :
    mutationObserverSchedules st b = Bool.false ∧
      mutationTimeoutFire env st = st ∧
      scrollTimeoutFire env st = st ∧
      resizeThrottleFire env st = st := by
  unfold mutationObserverSchedules mutationTimeoutFire scrollTimeoutFire resizeThrottleFire
  rw [h]
  cases b <;> simp

/-- Witness for C6 at a concrete showing state. -/
theorem reconciliation_suppressed_while_showing_witness :
    isTooltipActive stShowing = true ∧
      (mutationObserverSchedules stShowing true = Bool.false ∧
        mutationTimeoutFire envSample stShowing = stShowing ∧
        scrollTimeoutFire envSample stShowing = stShowing ∧
        resizeThrottleFire envSample stShowing = stShowing) :=
  ⟨rfl, reconciliation_suppressed_while_showing envSample stShowing true rfl⟩

/-- Lemma: `refreshClaimEntry` keeps the map key of its entry. -/
theorem refreshClaimEntry_key (env : DocEnv) (e : String × TrackedClaim) :
    (refreshClaimEntry env e).1 = e.1 := by
  unfold refreshClaimEntry
  dsimp only
  repeat' split
  all_goals rfl

/-- Lemma: `find?` by key through the refresh map. -/
theorem find?_map_refreshClaimEntry (env : DocEnv) (m : List (String × TrackedClaim))
    (k : String) :
    ((m.map (refreshClaimEntry env)).find? fun x => x.1 == k)
      = (m.find? fun x => x.1 == k).map (refreshClaimEntry env) := by
  rw [List.find?_map]
  have hp : ((fun x => x.1 == k) ∘ refreshClaimEntry env)
      = fun x : String × TrackedClaim => x.1 == k := by
    funext x
    simp [Function.comp, refreshClaimEntry_key]
  rw [hp]

/-- The tracked entry of a claim after a reconciliation pass is the
refreshed version of its entry before the pass. -/
theorem mapGet_refreshOverlayPositions (env : DocEnv) (st : HighlighterState) (k : String) :
    mapGet (refreshOverlayPositions env st).trackedClaims k
      = (mapGet st.trackedClaims k).map fun t => (refreshClaimEntry env (k, t)).2 := by
  unfold refreshOverlayPositions mapGet
  dsimp only
  rw [hideActiveTooltip_trackedClaims, find?_map_refreshClaimEntry]
  cases hf : st.trackedClaims.find? fun x => x.1 == k with
  | none => rfl
  | some e =>
    have hk : e.1 = k := by
      have h2 := List.find?_some hf
      exact beq_iff_eq.mp h2
    cases e with
    | mk a b =>
      dsimp only at hk
      rw [hk]
      rfl

/-- C7 (amended): if during a reconciliation pass the text of a tracked claim
cannot be re-located but it holds a stored geometry snapshot, new overlays
are created at exactly the stored document-relative coordinates — one per
snapshot rect of width and height at least 5 (smaller rects are discarded by
the noise filter, exactly as at creation time) — so the claim ends the pass
with zero overlays only if the snapshot holds no rect of at least 5×5. -/
theorem refresh_fallback_to_stored_rects (env : DocEnv) (st : HighlighterState)
    (claimId : String) (t : TrackedClaim) (stored : List Rect)
    (h : mapGet st.trackedClaims claimId = some t)
    (hloc : env.findTextRects t.claimText = [])
    (hsnap : t.originalRects = some stored) :
    ∃ t2, mapGet (refreshOverlayPositions env st).trackedClaims claimId = some t2 ∧
      t2.overlayElements = createOverlaysFromStoredRects claimId stored
        ((t.verification.map fun v => v.rating).getD Rating.unverified) ∧
      (∀ o ∈ t2.overlayElements, ∃ r ∈ stored,
        o.top = r.top ∧ o.left = r.left ∧ o.width = r.width ∧ o.height = r.height ∧
          5 ≤ r.width ∧ 5 ≤ r.height) ∧
      ((∃ r ∈ stored, 5 ≤ r.width ∧ 5 ≤ r.height) → t2.overlayElements ≠ []) := by
  have hre : (refreshClaimEntry env (claimId, t)).2
      = { t with overlayElements := createOverlaysFromStoredRects claimId stored ((t.verification.map fun v => v.rating).getD Rating.unverified) } := by
    unfold refreshClaimEntry
    dsimp only
    rw [hsnap, hloc]
    rw [if_neg (show ¬ ((t.overlayElements.isEmpty
      && ((some stored : Option (List Rect)) == none)) = true) by simp)]
    rw [if_neg (show ¬ ((!([] : List Rect).isEmpty) = true) by decide)]
    dsimp only
    by_cases hs : stored.isEmpty = true
    · have hnil : stored = [] := List.isEmpty_iff.mp hs
      subst hnil
      rw [if_neg (show ¬ ((!([] : List Rect).isEmpty) = true) by decide)]
      rfl
    · have hs2 : stored.isEmpty = false := by simpa using hs
      rw [if_pos (show ((!stored.isEmpty) = true) by rw [hs2]; rfl)]
  refine ⟨(refreshClaimEntry env (claimId, t)).2, ?_, ?_, ?_, ?_⟩
  · rw [mapGet_refreshOverlayPositions, h]
    rfl
  · rw [hre]
  · rw [hre]
    intro o ho
    dsimp only at ho
    unfold createOverlaysFromStoredRects at ho
    rcases List.mem_filterMap.mp ho with ⟨r, hr, hsome⟩
    by_cases hsz : r.width < 5 ∨ r.height < 5
    · rw [if_pos hsz] at hsome
      cases hsome
    · rw [if_neg hsz] at hsome
      injection hsome with ho2
      have h1 : ¬ (r.width < 5) := fun hlt => hsz (Or.inl hlt)
      have h2 : ¬ (r.height < 5) := fun hlt => hsz (Or.inr hlt)
      refine ⟨r, hr, ?_, ?_, ?_, ?_, not_lt.mp h1, not_lt.mp h2⟩
      all_goals rw [← ho2]
  · rw [hre]
    rintro ⟨r, hr, h5w, h5h⟩ hnil
    dsimp only at hnil
    unfold createOverlaysFromStoredRects at hnil
    have hguard : ¬ (r.width < 5 ∨ r.height < 5) := by
      rintro (hlt | hlt)
      · exact absurd h5w (not_le.mpr hlt)
      · exact absurd h5h (not_le.mpr hlt)
    have hnone := (List.filterMap_eq_nil_iff.mp hnil) r hr
    rw [if_neg hguard] at hnone
    cases hnone

/-- A document environment in which no claim text can be located. -/
def envC7 : DocEnv := { findTextRects := fun _ => [], scrollX := 0, scrollY := 0 }

/-- A 1×1 rect, below the noise-filter minimum. -/
def rTiny : Rect := { top := 0, left := 0, width := 1, height := 1 }

/-- A 10×10 rect, above the noise-filter minimum. -/
def rBig : Rect := { top := 0, left := 0, width := 10, height := 10 }

/-- A tracked claim whose stored snapshot holds only a 1×1 rect. -/
def tC7 : TrackedClaim :=
  { claimId := "c7",
    claimText := "t7",
    verification := none,
    overlayElements := [],
    originalRects := some [rTiny] }

/-- A highlighter state tracking `tC7`. -/
def stC7 : HighlighterState :=
  { initialHighlighterState with trackedClaims := [("c7", tC7)] }

/-- Counterexample to C7 as stated: a tracked claim whose text cannot be
re-located and whose non-empty snapshot holds only a 1×1 rect ends the
reconciliation pass with zero overlays, because the fallback path applies
the same ≥ 5×5 noise filter as overlay creation — so it is not true that
only a claim with neither re-locatable text nor a snapshot ends the pass
with zero overlays. -/
theorem refresh_fallback_counterexample :
    ¬ (∀ (env : DocEnv) (st : HighlighterState) (claimId : String) (t : TrackedClaim)
        (stored : List Rect),
        mapGet st.trackedClaims claimId = some t →
        env.findTextRects t.claimText = [] →
        t.originalRects = some stored → stored ≠ [] →
        ∀ t2, mapGet (refreshOverlayPositions env st).trackedClaims claimId = some t2 →
          t2.overlayElements ≠ []) := by
  intro hclaim
  exact hclaim envC7 stC7 "c7" tC7 [rTiny] rfl rfl rfl (by decide) tC7 rfl rfl

/-- Witness for the amended C7 at a snapshot holding a 10×10 rect. -/
theorem refresh_fallback_to_stored_rects_witness :
    mapGet stTracked.trackedClaims "c1" = some trackedSample ∧
      envC7.findTextRects trackedSample.claimText = [] ∧
      trackedSample.originalRects = some [rBig] ∧
      (∃ t2, mapGet (refreshOverlayPositions envC7 stTracked).trackedClaims "c1" = some t2 ∧
        t2.overlayElements = createOverlaysFromStoredRects "c1" [rBig]
          ((trackedSample.verification.map fun v => v.rating).getD Rating.unverified) ∧
        (∀ o ∈ t2.overlayElements, ∃ r ∈ [rBig],
          o.top = r.top ∧ o.left = r.left ∧ o.width = r.width ∧ o.height = r.height ∧
            5 ≤ r.width ∧ 5 ≤ r.height) ∧
        ((∃ r ∈ [rBig], 5 ≤ r.width ∧ 5 ≤ r.height) → t2.overlayElements ≠ [])) :=
  ⟨rfl, rfl, rfl, refresh_fallback_to_stored_rects envC7 stTracked "c1" trackedSample
    [rBig] rfl rfl rfl⟩

/-- A claim kept by the dedup loop has a normalized text outside the seen
set. -/
theorem deduplicateClaimsAux_not_seen :
    ∀ (l : List Claim) (seen : List String) (c : Claim),
      c ∈ deduplicateClaimsAux l seen → seen.contains c.normalizedText = Bool.false := by
  intro l
  induction l with
  | nil =>
    intro seen c hc
    cases hc
  | cons d rest ih =>
    intro seen c hc
    rw [deduplicateClaimsAux] at hc
    by_cases hd : seen.contains d.normalizedText = true
    · rw [if_pos hd] at hc
      exact ih seen c hc
    · rw [if_neg hd] at hc
      rcases List.mem_cons.mp hc with rfl | hmem
      · simpa using hd
      · have h2 := ih _ c hmem
        rw [List.contains_cons, Bool.or_eq_false_iff] at h2
        exact h2.2

/-- The dedup loop output has pairwise-distinct normalized texts. -/
theorem deduplicateClaimsAux_pairwise :
    ∀ (l : List Claim) (seen : List String),
      (deduplicateClaimsAux l seen).Pairwise
        (fun a b => a.normalizedText ≠ b.normalizedText) := by
  intro l
  induction l with
  | nil =>
    intro seen
    exact List.Pairwise.nil
  | cons d rest ih =>
    intro seen
    rw [deduplicateClaimsAux]
    by_cases hd : seen.contains d.normalizedText = true
    · rw [if_pos hd]
      exact ih seen
    · rw [if_neg hd]
      refine List.Pairwise.cons ?_ (ih _)
      intro b hb heq
      have h2 := deduplicateClaimsAux_not_seen rest _ b hb
      rw [List.contains_cons, Bool.or_eq_false_iff] at h2
      have h3 := beq_iff_eq.mpr heq.symm
      rw [h2.1] at h3
      cases h3

/-- Each claim kept by the dedup loop is the first of the input list bearing
its normalized text. -/
theorem deduplicateClaimsAux_first_match :
    ∀ (l : List Claim) (seen : List String) (c : Claim),
      c ∈ deduplicateClaimsAux l seen →
      l.find? (fun d => d.normalizedText == c.normalizedText) = some c := by
  intro l
  induction l with
  | nil =>
    intro seen c hc
    cases hc
  | cons d rest ih =>
    intro seen c hc
    rw [deduplicateClaimsAux] at hc
    by_cases hd : seen.contains d.normalizedText = true
    · rw [if_pos hd] at hc
      have hne : ¬ ((d.normalizedText == c.normalizedText) = true) := by
        intro hdc
        have hcs := deduplicateClaimsAux_not_seen rest seen c hc
        rw [beq_iff_eq.mp hdc] at hd
        rw [hcs] at hd
        cases hd
      rw [List.find?_cons_of_neg
        (p := fun d => d.normalizedText == c.normalizedText) (a := d) _ hne]
      exact ih seen c hc
    · rw [if_neg hd] at hc
      rcases List.mem_cons.mp hc with rfl | hmem
      · rw [List.find?_cons_of_pos
          (p := fun d => d.normalizedText == c.normalizedText) (a := c) _ (by simp)]
      · have hcs := deduplicateClaimsAux_not_seen rest _ c hmem
        rw [List.contains_cons, Bool.or_eq_false_iff] at hcs
        have hne : ¬ ((d.normalizedText == c.normalizedText) = true) := by
          intro hdc
          have h3 := beq_iff_eq.mpr (beq_iff_eq.mp hdc).symm
          rw [hcs.1] at h3
          cases h3
        rw [List.find?_cons_of_neg
          (p := fun d => d.normalizedText == c.normalizedText) (a := d) _ hne]
        exact ih _ c hmem

/-- Every input claim whose normalized text is not blocked by the seen set
is represented in the dedup loop output. -/
theorem deduplicateClaimsAux_coverage :
    ∀ (l : List Claim) (seen : List String) (d : Claim),
      d ∈ l → seen.contains d.normalizedText = Bool.false →
      ∃ c ∈ deduplicateClaimsAux l seen, c.normalizedText = d.normalizedText := by
  intro l
  induction l with
  | nil =>
    intro seen d hd _
    cases hd
  | cons e rest ih =>
    intro seen d hd hseen
    rw [deduplicateClaimsAux]
    by_cases he : seen.contains e.normalizedText = true
    · rw [if_pos he]
      rcases List.mem_cons.mp hd with rfl | hmem
      · rw [hseen] at he
        cases he
      · exact ih seen d hmem hseen
    · rw [if_neg he]
      rcases List.mem_cons.mp hd with rfl | hmem
      · exact ⟨d, List.mem_cons_self _ _, rfl⟩
      · by_cases hde : (d.normalizedText == e.normalizedText) = true
        · exact ⟨e, List.mem_cons_self _ _, (beq_iff_eq.mp hde).symm⟩
        · have hseen2 : (e.normalizedText :: seen).contains d.normalizedText = Bool.false := by
            rw [List.contains_cons, Bool.or_eq_false_iff]
            exact ⟨by simpa using hde, hseen⟩
          rcases ih _ d hmem hseen2 with ⟨c, hcmem, hcnt⟩
          exact ⟨c, List.mem_cons_of_mem _ hcmem, hcnt⟩

/-- C10: the list returned by `detectClaims` contains no two claims with
equal normalized (lowercased, trimmed) text; each kept claim is the first
extraction in scan order bearing its normalized text; and every raw
extraction is represented by a kept claim with the same normalized text —
the first-match deduplication policy. -/
theorem detectClaims_dedup_first_match (t : Nat) (textNodes : List String) :
    (detectClaims t textNodes).Pairwise
        (fun a b => a.normalizedText ≠ b.normalizedText) ∧
      (∀ c ∈ detectClaims t textNodes,
        (rawDetectedClaims t textNodes).find?
          (fun d => d.normalizedText == c.normalizedText) = some c) ∧
      (∀ d ∈ rawDetectedClaims t textNodes, ∃ c ∈ detectClaims t textNodes,
        c.normalizedText = d.normalizedText) := by
  unfold detectClaims deduplicateClaims
  exact ⟨deduplicateClaimsAux_pairwise _ _,
    fun c hc => deduplicateClaimsAux_first_match _ _ c hc,
    fun d hd => deduplicateClaimsAux_coverage _ _ d hd rfl⟩

end LieDetector











